import Mathlib

/-!
# Verification of the jungfrau_utils data handler

A shallow embedding of `jungfrau_utils/data_handler.py` (plus the geometry
table of `jungfrau_utils/geometry.py`) together with theorems settling the
frozen claims about the specification.

Modelling conventions:
* numpy arrays are modelled as structures carrying an explicit shape and a
  total data function; slicing follows numpy semantics (shapes are clamped,
  data functions are index shifts);
* mutable buffers written by the numba kernels are modelled as total
  functions from coordinates to values; the in-place scatter writes of a
  kernel become an explicit list of (target, value) writes applied left to
  right (`runWrites`), so later writes win exactly as in the source;
* float32 arithmetic is modelled over `ℚ`: all the claims treated here are
  structural (which table entry is read, where a value is placed, when an
  error is raised), so the numeric value type only has to support the same
  operation sequence as the source;
* Python exceptions become `Except JFError`; the `warnings.warn` call in
  `process` is modelled by a list of warning strings carried in the success
  value.
-/

namespace JFUtils

/-- Constants from the top of `data_handler.py`. -/
def CHIP_SIZE_X : Nat := 256

def CHIP_SIZE_Y : Nat := 256

def CHIP_NUM_X : Nat := 4

def CHIP_NUM_Y : Nat := 2

def MODULE_SIZE_X : Nat := CHIP_NUM_X * CHIP_SIZE_X

def MODULE_SIZE_Y : Nat := CHIP_NUM_Y * CHIP_SIZE_Y

def CHIP_GAP_X : Nat := 2

def CHIP_GAP_Y : Nat := 2

def STRIPSEL_SIZE_X : Nat := 1024 * 3 + 18

def STRIPSEL_SIZE_Y : Nat := 86

/-- The per-detector module origin table from `geometry.py` (`modules_orig`).
The snapshot of the repository carries exactly these three detectors. -/
def modules_orig (name : String) : Option (List Nat × List Nat) :=
  if name = "JF03T01V01" then
    some ([0], [0])
  else if name = "JF06T32V01" then
    some
      ([68, 0, 618, 618,
        550, 550, 1168, 1168,
        1100, 1100, 1718, 1718,
        1650, 1650, 2268, 2268,
        2200, 2200, 2818, 2818,
        2750, 2750, 3368, 3368,
        3300, 3300, 3918, 3918,
        3850, 3850, 4468, 4400],
       [972, 2011, 0, 1039,
        2078, 3117, 0, 1039,
        2078, 3117, 0, 1039,
        2078, 3117, 66, 1106,
        2145, 3184, 66, 1106,
        2145, 3184, 66, 1106,
        2145, 3184, 66, 1106,
        2145, 3184, 1106, 2145])
  else if name = "JF07T32V01" then
    some
      ([0, 0, 68, 68,
        550, 550, 618, 618,
        1100, 1100, 1168, 1168,
        1650, 1650, 1718, 1718,
        2200, 2200, 2268, 2268,
        2750, 2750, 2818, 2818,
        3300, 3300, 3368, 3368,
        3850, 3850, 3918, 3918],
       [68, 1107, 2146, 3185,
        68, 1107, 2146, 3185,
        68, 1107, 2146, 3185,
        68, 1107, 2146, 3185,
        0, 1039, 2078, 3117,
        0, 1039, 2078, 3117,
        0, 1039, 2078, 3117,
        0, 1039, 2078, 3117])
  else none

/-- Runs of consecutive decimal digits in a character list, as numbers: the
embedding of `re.findall(r"\d+", s)` followed by `int`. -/
def digitRuns : List Char → Option Nat → List Nat
  | [], none => []
  | [], some n => [n]
  | c :: rest, cur =>
    if c.isDigit then
      digitRuns rest (some ((cur.getD 0) * 10 + (c.toNat - 48)))
    else
      match cur with
      | some n => n :: digitRuns rest none
      | none => digitRuns rest none

/-- `re.findall(r"\d+", name)` with each run parsed as an integer. -/
def findallNat (name : String) : List Nat :=
  digitRuns name.toList none

/-- `detector.id` of the namedtuple built in the `detector` property. -/
def detector_id (name : String) : Nat := ((findallNat name).get? 0).getD 0

/-- `detector.n_modules` of the namedtuple built in the `detector` property. -/
def n_modules (name : String) : Nat := ((findallNat name).get? 1).getD 0

/-- `str.startswith` on a single prefix, via character lists. -/
def strStartsWith (s p : String) : Bool := p.toList.isPrefixOf s.toList

/-- `JFDataHandler.is_stripsel`: the detector name starts with one of
`JF05`, `JF10`, `JF11`, `JF12`. -/
def is_stripsel (name : String) : Bool :=
  strStartsWith name "JF05" || strStartsWith name "JF10" ||
    strStartsWith name "JF11" || strStartsWith name "JF12"

/-- `JFDataHandler._get_shape_n_modules`: shape covered by `n` modules;
`JF02T09V01` packs modules along x, every other detector stacks along y. -/
def _get_shape_n_modules (name : String) (n : Nat) : Nat × Nat :=
  if name = "JF02T09V01" then (MODULE_SIZE_Y, MODULE_SIZE_X * n)
  else (MODULE_SIZE_Y * n, MODULE_SIZE_X)

/-- `JFDataHandler._number_active_modules`: `np.sum(module_map != -1)`. -/
def _number_active_modules (module_map : List Int) : Nat :=
  (module_map.filter (fun m => m ≠ -1)).length

/-- A 3-d numpy array of rationals (gain / pedestal tables; plane, y, x). -/
structure Array3 where
  shape : Nat × Nat × Nat
  data : Nat → Nat → Nat → ℚ

/-- A 2-d boolean numpy array (the pixel mask). -/
structure Array2B where
  shape : Nat × Nat
  data : Nat → Nat → Bool

/-- A stack of integer-valued raw frames (uint16 data; shape = (num, y, x)). -/
structure StackN where
  shape : Nat × Nat × Nat
  data : Nat → Nat → Nat → Nat

/-- A stack of rational-valued frames (the processing result). -/
structure StackQ where
  shape : Nat × Nat × Nat
  data : Nat → Nat → Nat → ℚ

/-- The mutable state of a `JFDataHandler` instance.  The derived tables
(`_g_all`, `_p_all`, `_mask_all`) are stored exactly as the source stores
them, recomputed by the setters. -/
structure JFDataHandler where
  detector_name : String
  gain : Option Array3 := none
  pedestal : Option Array3 := none
  pixel_mask : Option Array2B := none
  highgain : Bool := false
  g_all : Bool → Option Array3 := fun _ => none
  p_all : Bool → Option Array3 := fun _ => none
  module_map : List Int := []
  mask_all : Bool → Option Array2B := fun _ => none
  mask_double_pixels : Bool := false

/-- Errors raised by the handler (Python exception classes collapsed to the
sites that raise them). -/
inductive JFError where
  | unknownDetector
  | gainShape
  | pedestalShape
  | pixelMaskShape
  | moduleMapLength
  | moduleMapRange
  | imageShape
  | gainPedestalUnset
  | pixelMaskUnset
  deriving DecidableEq, Repr

/-- `JFDataHandler.__init__`: reject names missing from the geometry table,
otherwise start with an identity module map and everything else unset. -/
def JFDataHandler.init (name : String) : Except JFError JFDataHandler :=
  if (modules_orig name).isSome then
    .ok { detector_name := name
          module_map := (List.range (n_modules name)).map Int.ofNat }
  else .error .unknownDetector

/-- `JFDataHandler._shape_full` (nominal module count). -/
def JFDataHandler._shape_full (h : JFDataHandler) : Nat × Nat :=
  _get_shape_n_modules h.detector_name (n_modules h.detector_name)

/-- `JFDataHandler._shape_in` (active module count). -/
def JFDataHandler._shape_in (h : JFDataHandler) : Nat × Nat :=
  _get_shape_n_modules h.detector_name (_number_active_modules h.module_map)

/-- `max` of a list of naturals as numpy's `max` over the origin tables
(the tables are never empty for a valid detector). -/
def listMax (l : List Nat) : Nat := l.foldr max 0

/-- `JFDataHandler._get_stripsel_shape_out`. -/
def JFDataHandler._get_stripsel_shape_out (h : JFDataHandler) (geometry : Bool) :
    Nat × Nat :=
  if geometry then
    let t := (modules_orig h.detector_name).getD ([], [])
    (listMax t.1 + STRIPSEL_SIZE_Y, listMax t.2 + STRIPSEL_SIZE_X)
  else h._shape_in

/-- `JFDataHandler.get_shape_out`, returned as (shape_y, shape_x). -/
def JFDataHandler.get_shape_out (h : JFDataHandler) (gap_pixels geometry : Bool) :
    Nat × Nat :=
  if is_stripsel h.detector_name then h._get_stripsel_shape_out geometry
  else if geometry && gap_pixels then
    let t := (modules_orig h.detector_name).getD ([], [])
    (listMax t.1 + MODULE_SIZE_Y + (CHIP_NUM_Y - 1) * CHIP_GAP_Y,
     listMax t.2 + MODULE_SIZE_X + (CHIP_NUM_X - 1) * CHIP_GAP_X)
  else if geometry && !gap_pixels then
    let t := (modules_orig h.detector_name).getD ([], [])
    (listMax t.1 + MODULE_SIZE_Y, listMax t.2 + MODULE_SIZE_X)
  else if !geometry && gap_pixels then
    let s := h._shape_in
    if h.detector_name = "JF02T09V01" then
      (s.1 + (CHIP_NUM_Y - 1) * CHIP_GAP_Y,
       s.2 + (CHIP_NUM_X - 1) * CHIP_GAP_X * _number_active_modules h.module_map)
    else
      (s.1 + (CHIP_NUM_Y - 1) * CHIP_GAP_Y * _number_active_modules h.module_map,
       s.2 + (CHIP_NUM_X - 1) * CHIP_GAP_X)
  else h._shape_in

/-- `JFDataHandler.can_convert`. -/
def JFDataHandler.can_convert (h : JFDataHandler) : Bool :=
  h.gain.isSome && h.pedestal.isSome

/-- The `gain` property setter.  On a real array: validate the shape against
`(4, *self._shape_full)`, store the (float32) value, recompute both derived
layouts: `_g = 1 / gain`; `_g_all[True] = _g[3:].copy()` (one plane, the
inverted raw plane 3); then `_g[3] = _g[2]` and `_g_all[False] = _g`.
Assigning `None` clears only `_gain`, exactly as the source does.  The
`ndim != 3` guard of the source is subsumed by the `Array3` type. -/
def JFDataHandler.setGain (h : JFDataHandler) (value : Option Array3) :
    Except JFError JFDataHandler :=
  match value with
  | none => .ok { h with gain := none }
  | some v =>
    if v.shape ≠ (4, h._shape_full.1, h._shape_full.2) then .error .gainShape
    else
      let g : Nat → Nat → Nat → ℚ := fun p y x => (v.data p y x)⁻¹
      let gTrue : Array3 :=
        { shape := (1, h._shape_full.1, h._shape_full.2)
          data := fun p y x => g (p + 3) y x }
      let gFalse : Array3 :=
        { shape := (4, h._shape_full.1, h._shape_full.2)
          data := fun p y x => if p = 3 then g 2 y x else g p y x }
      .ok { h with
            gain := some v
            g_all := fun b => if b then some gTrue else some gFalse }

/-- The `pedestal` property setter: same shape validation; `_p` is a copy of
the pedestal; `_p_all[True] = _p[3:].copy()` (raw plane 3, not inverted);
then `_p[3] = _p[2]` and `_p_all[False] = _p`. -/
def JFDataHandler.setPedestal (h : JFDataHandler) (value : Option Array3) :
    Except JFError JFDataHandler :=
  match value with
  | none => .ok { h with pedestal := none }
  | some v =>
    if v.shape ≠ (4, h._shape_full.1, h._shape_full.2) then .error .pedestalShape
    else
      let pTrue : Array3 :=
        { shape := (1, h._shape_full.1, h._shape_full.2)
          data := fun p y x => v.data (p + 3) y x }
      let pFalse : Array3 :=
        { shape := (4, h._shape_full.1, h._shape_full.2)
          data := fun p y x => if p = 3 then v.data 2 y x else v.data p y x }
      .ok { h with
            pedestal := some v
            p_all := fun b => if b then some pTrue else some pFalse }

/-- The `pixel_mask` property setter.  `_mask_all[False]` is the raw mask;
`_mask_all[True]` additionally forces `True` on the first and last row and
column of every 256x256 chip.  For every detector layout the module origins
are multiples of the module size, so chip edges are exactly the pixels with
`y % 256 ∈ {0, 255}` or `x % 256 ∈ {0, 255}` inside the full mask. -/
def JFDataHandler.setPixelMask (h : JFDataHandler) (value : Option Array2B) :
    Except JFError JFDataHandler :=
  match value with
  | none => .ok { h with pixel_mask := none }
  | some v =>
    if v.shape ≠ h._shape_full then .error .pixelMaskShape
    else
      let mTrue : Array2B :=
        { shape := h._shape_full
          data := fun y x =>
            v.data y x || (y % CHIP_SIZE_Y = 0) || (y % CHIP_SIZE_Y = CHIP_SIZE_Y - 1)
              || (x % CHIP_SIZE_X = 0) || (x % CHIP_SIZE_X = CHIP_SIZE_X - 1) }
      .ok { h with
            pixel_mask := some v
            mask_all := fun b => if b then some mTrue else some v }

/-- `JFDataHandler._g` (the derived gain layout for the current regime). -/
def JFDataHandler._g (h : JFDataHandler) : Option Array3 := h.g_all h.highgain

/-- `JFDataHandler._p`. -/
def JFDataHandler._p (h : JFDataHandler) : Option Array3 := h.p_all h.highgain

/-- `JFDataHandler._mask`. -/
def JFDataHandler._mask (h : JFDataHandler) : Option Array2B :=
  h.mask_all h.mask_double_pixels

/-- Python's `min` of a non-empty integer list (`[]` is unreachable through
the setter, where the length has already been checked). -/
def pyMin : List Int → Int
  | [] => 0
  | x :: xs => xs.foldl min x

/-- Python's `max` of a non-empty integer list. -/
def pyMax : List Int → Int
  | [] => 0
  | x :: xs => xs.foldl max x

/-- The `module_map` property setter: `None` installs `np.arange(n_modules)`;
otherwise the length must equal the nominal module count and
`min(value) < -1 or n_modules <= max(value)` is rejected; an accepted
sequence is stored as given. -/
def JFDataHandler.set_module_map (h : JFDataHandler) (value : Option (List Int)) :
    Except JFError JFDataHandler :=
  let n := n_modules h.detector_name
  match value with
  | none => .ok { h with module_map := (List.range n).map Int.ofNat }
  | some v =>
    if v.length ≠ n then .error .moduleMapLength
    else if pyMin v < -1 || (n : Int) ≤ pyMax v then .error .moduleMapRange
    else .ok { h with module_map := v }

/-! ## Buffers and scatter writes

The numba kernels mutate a pre-allocated `res` array in place.  A buffer is a
total function from (frame, row, column) coordinates to values; a kernel run
is a list of writes applied left to right, so that a later write to the same
coordinate wins, exactly as in the source. -/

/-- Buffer coordinates: (frame index, row, column). -/
abbrev Coord := Nat × Nat × Nat

/-- A mutable result buffer. -/
abbrev Buf := Coord → ℚ

/-- One scatter write. -/
abbrev Write := Coord × ℚ

/-- Apply a list of writes to a buffer, left to right. -/
def runWrites (ws : List Write) (b : Buf) : Buf :=
  ws.foldl (fun b w => Function.update b w.1 w.2) b

/-- The all-zero buffer (`np.zeros`). -/
def zeroBuf : Buf := fun _ => 0

/-- A gain/pedestal module slice as passed to the kernels. -/
abbrev Plane3Q := Nat → Nat → Nat → ℚ

/-- A mask module slice as passed to the kernels. -/
abbrev Mask2 := Nat → Nat → Bool

/-- The gain-stage selector of a raw pixel word: `image >> 14`. -/
def gainBits (w : Nat) : Nat := w >>> 14

/-- The ADC magnitude of a raw pixel word: `image & 0x3FFF`. -/
def adcBits (w : Nat) : Nat := w &&& 0x3FFF

/-- The gap-pixel destination shift of the kernels:
`ri = i + i // CHIP_SIZE * CHIP_GAP * gap_pixels` (the boolean multiplies). -/
def gapShift (chip gapw : Nat) (gap_pixels : Bool) (i : Nat) : Nat :=
  i + i / chip * gapw * (if gap_pixels then 1 else 0)

/-- The value written by `_correct` for source pixel `(i1, i2, i3)`:
masked pixels become 0; without tables the raw word passes through;
otherwise `(val - pedestal[gm, i2, i3]) * gain[gm, i2, i3]`. -/
def _correct_value (image : StackN) (gain pedestal : Option Plane3Q)
    (mask : Option Mask2) (i1 i2 i3 : Nat) : ℚ :=
  if (match mask with | some mk => mk i2 i3 | none => false) then 0
  else
    match gain, pedestal with
    | some g, some p =>
      let w := image.data i1 i2 i3
      ((adcBits w : ℚ) - p (gainBits w) i2 i3) * g (gainBits w) i2 i3
    | _, _ => (image.data i1 i2 i3 : ℚ)

/-- The value written by `_correct_highgain`: selector bits are ignored and
plane 0 of the highgain layout is used for every pixel. -/
def _correct_highgain_value (image : StackN) (gain pedestal : Option Plane3Q)
    (mask : Option Mask2) (i1 i2 i3 : Nat) : ℚ :=
  if (match mask with | some mk => mk i2 i3 | none => false) then 0
  else
    match gain, pedestal with
    | some g, some p =>
      let w := image.data i1 i2 i3
      ((adcBits w : ℚ) - p 0 i2 i3) * g 0 i2 i3
    | _, _ => (image.data i1 i2 i3 : ℚ)

/-- The writes of one frame (`i1`) of the `_correct` loop nest, in loop
order. -/
def _correct_frame_writes (image : StackN) (gain pedestal : Option Plane3Q)
    (mask : Option Mask2) (gap_pixels : Bool) (i1 : Nat) : List Write :=
  (List.range image.shape.2.1).flatMap fun i2 =>
    (List.range image.shape.2.2).map fun i3 =>
      ((i1, gapShift CHIP_SIZE_Y CHIP_GAP_Y gap_pixels i2,
        gapShift CHIP_SIZE_X CHIP_GAP_X gap_pixels i3),
       _correct_value image gain pedestal mask i1 i2 i3)

/-- Frame writes of `_correct_highgain`. -/
def _correct_highgain_frame_writes (image : StackN) (gain pedestal : Option Plane3Q)
    (mask : Option Mask2) (gap_pixels : Bool) (i1 : Nat) : List Write :=
  (List.range image.shape.2.1).flatMap fun i2 =>
    (List.range image.shape.2.2).map fun i3 =>
      ((i1, gapShift CHIP_SIZE_Y CHIP_GAP_Y gap_pixels i2,
        gapShift CHIP_SIZE_X CHIP_GAP_X gap_pixels i3),
       _correct_highgain_value image gain pedestal mask i1 i2 i3)

/-- `_correct`: the serial kernel, all frames written in sequence. -/
def _correct (res : Buf) (image : StackN) (gain pedestal : Option Plane3Q)
    (mask : Option Mask2) (gap_pixels : Bool) : Buf :=
  runWrites
    ((List.range image.shape.1).flatMap
      (_correct_frame_writes image gain pedestal mask gap_pixels)) res

/-- `_correct_parallel`: `prange` over frames; every frame is computed
independently from the initial buffer, legitimate because a frame only ever
writes coordinates of its own frame index. -/
def _correct_parallel (res : Buf) (image : StackN) (gain pedestal : Option Plane3Q)
    (mask : Option Mask2) (gap_pixels : Bool) : Buf :=
  fun c =>
    if c.1 < image.shape.1 then
      runWrites (_correct_frame_writes image gain pedestal mask gap_pixels c.1) res c
    else res c

/-- `_correct_highgain` (serial). -/
def _correct_highgain (res : Buf) (image : StackN) (gain pedestal : Option Plane3Q)
    (mask : Option Mask2) (gap_pixels : Bool) : Buf :=
  runWrites
    ((List.range image.shape.1).flatMap
      (_correct_highgain_frame_writes image gain pedestal mask gap_pixels)) res

/-- `_correct_highgain_parallel`. -/
def _correct_highgain_parallel (res : Buf) (image : StackN)
    (gain pedestal : Option Plane3Q) (mask : Option Mask2) (gap_pixels : Bool) : Buf :=
  fun c =>
    if c.1 < image.shape.1 then
      runWrites (_correct_highgain_frame_writes image gain pedestal mask gap_pixels c.1) res c
    else res c

/-- Bulk output row of the stripsel remap: `yout = yin // 3`. -/
def stripselYout (yin : Nat) : Nat := yin / 3

/-- Bulk output column of the stripsel remap:
`xout = (xin // 256) * 774 + (xin % 256) * 3 + yin % 3`. -/
def stripselXout (yin xin : Nat) : Nat :=
  (xin / 256) * 774 + (xin % 256) * 3 + yin % 3

/-- Gap output row: `yout = (yin // 6) * 2` (the value is also written to
`yout + 1`). -/
def stripselGapYout (yin : Nat) : Nat := (yin / 6) * 2

/-- Gap source column (left side): `xin = igap * 64 + 63`. -/
def stripselGapXin (igap : Nat) : Nat := igap * 64 + 63

/-- Gap output column, left side: `xout = igap * 774 + 765 + yin % 6`. -/
def stripselGapXoutL (igap yin : Nat) : Nat := igap * 774 + 765 + yin % 6

/-- Gap output column, right (mirrored) side:
`xout = igap * 774 + 765 + 11 - yin % 6`. -/
def stripselGapXoutR (igap yin : Nat) : Nat := igap * 774 + 765 + 11 - yin % 6

/-- The writes of one frame of `_reshape_stripsel`: first the bulk pixels,
then the gap pixels which overwrite them, in loop order. -/
def _reshape_stripsel_frame_writes (image : StackQ) (ind : Nat) : List Write :=
  ((List.range 256).flatMap fun yin =>
    (List.range 1024).map fun xin =>
      ((ind, stripselYout yin, stripselXout yin xin), image.data ind yin xin))
  ++ ((List.range 3).flatMap fun igap =>
    (List.range 256).flatMap fun yin =>
      [((ind, stripselGapYout yin, stripselGapXoutL igap yin),
        image.data ind yin (stripselGapXin igap)),
       ((ind, stripselGapYout yin + 1, stripselGapXoutL igap yin),
        image.data ind yin (stripselGapXin igap)),
       ((ind, stripselGapYout yin, stripselGapXoutR igap yin),
        image.data ind yin (stripselGapXin igap + 1)),
       ((ind, stripselGapYout yin + 1, stripselGapXoutR igap yin),
        image.data ind yin (stripselGapXin igap + 1))])

/-- `_reshape_stripsel` (serial). -/
def _reshape_stripsel (res : Buf) (image : StackQ) : Buf :=
  runWrites ((List.range image.shape.1).flatMap (_reshape_stripsel_frame_writes image)) res

/-- `_reshape_stripsel_parallel`. -/
def _reshape_stripsel_parallel (res : Buf) (image : StackQ) : Buf :=
  fun c =>
    if c.1 < image.shape.1 then
      runWrites (_reshape_stripsel_frame_writes image c.1) res c
    else res c

/-- The type of a correction kernel as dispatched by `_proc_func`. -/
abbrev KernelFn :=
  Buf → StackN → Option Plane3Q → Option Plane3Q → Option Mask2 → Bool → Buf

/-- `JFDataHandler._proc_func`: dispatch on (highgain, parallel). -/
def JFDataHandler._proc_func (h : JFDataHandler) (parallel : Bool) : KernelFn :=
  if !h.highgain && !parallel then _correct
  else if !h.highgain && parallel then _correct_parallel
  else if h.highgain && !parallel then _correct_highgain
  else _correct_highgain_parallel

/-- `JFDataHandler._reshape_stripsel` (the method choosing the remap
variant). -/
def _reshape_stripsel_fn (parallel : Bool) : Buf → StackQ → Buf :=
  if !parallel then _reshape_stripsel else _reshape_stripsel_parallel

/-- `JFDataHandler._get_final_module_coordinates` (for an enabled module,
`m ≥ 0`). -/
def JFDataHandler._get_final_module_coordinates (h : JFDataHandler)
    (m i : Nat) (geometry gap_pixels : Bool) : Nat × Nat :=
  if geometry then
    let t := (modules_orig h.detector_name).getD ([], [])
    ((t.1.get? i).getD 0, (t.2.get? i).getD 0)
  else if gap_pixels then
    if h.detector_name = "JF02T09V01" then
      (0, m * (MODULE_SIZE_X + (CHIP_NUM_X - 1) * CHIP_GAP_X))
    else (m * (MODULE_SIZE_Y + (CHIP_NUM_Y - 1) * CHIP_GAP_Y), 0)
  else
    if h.detector_name = "JF02T09V01" then (0, m * MODULE_SIZE_X)
    else (m * MODULE_SIZE_Y, 0)

/-- `JFDataHandler._get_module_slice` on an image stack.  numpy slice
semantics: the extent is clamped to the array, the data function is an index
shift.  With `geometry` set, modules of the two legacy detector revisions
are rotated by 180 degrees. -/
def sliceStackN (name : String) (s : StackN) (m : Nat) (geometry : Bool) : StackN :=
  let base : StackN :=
    if name = "JF02T09V01" then
      { shape := (s.shape.1, s.shape.2.1,
          min ((m + 1) * MODULE_SIZE_X) s.shape.2.2 - min (m * MODULE_SIZE_X) s.shape.2.2)
        data := fun i y x => s.data i y (m * MODULE_SIZE_X + x) }
    else
      { shape := (s.shape.1,
          min ((m + 1) * MODULE_SIZE_Y) s.shape.2.1 - min (m * MODULE_SIZE_Y) s.shape.2.1,
          s.shape.2.2)
        data := fun i y x => s.data i (m * MODULE_SIZE_Y + y) x }
  if geometry && (name = "JF02T09V02" || name = "JF02T01V02") then
    { shape := base.shape
      data := fun i y x => base.data i (base.shape.2.1 - 1 - y) (base.shape.2.2 - 1 - x) }
  else base

/-- `_get_module_slice` on a gain/pedestal table (first axis = planes). -/
def slicePlane3 (name : String) (a : Array3) (m : Nat) (geometry : Bool) : Array3 :=
  let base : Array3 :=
    if name = "JF02T09V01" then
      { shape := (a.shape.1, a.shape.2.1,
          min ((m + 1) * MODULE_SIZE_X) a.shape.2.2 - min (m * MODULE_SIZE_X) a.shape.2.2)
        data := fun p y x => a.data p y (m * MODULE_SIZE_X + x) }
    else
      { shape := (a.shape.1,
          min ((m + 1) * MODULE_SIZE_Y) a.shape.2.1 - min (m * MODULE_SIZE_Y) a.shape.2.1,
          a.shape.2.2)
        data := fun p y x => a.data p (m * MODULE_SIZE_Y + y) x }
  if geometry && (name = "JF02T09V02" || name = "JF02T01V02") then
    { shape := base.shape
      data := fun p y x => base.data p (base.shape.2.1 - 1 - y) (base.shape.2.2 - 1 - x) }
  else base

/-- `_get_module_slice` on the 2-d mask (the `_allow_2darray` decorator adds
and strips a frame axis around the slice). -/
def sliceMask (name : String) (a : Array2B) (m : Nat) (geometry : Bool) : Array2B :=
  let base : Array2B :=
    if name = "JF02T09V01" then
      { shape := (a.shape.1,
          min ((m + 1) * MODULE_SIZE_X) a.shape.2 - min (m * MODULE_SIZE_X) a.shape.2)
        data := fun y x => a.data y (m * MODULE_SIZE_X + x) }
    else
      { shape := (min ((m + 1) * MODULE_SIZE_Y) a.shape.1 - min (m * MODULE_SIZE_Y) a.shape.1,
          a.shape.2)
        data := fun y x => a.data (m * MODULE_SIZE_Y + y) x }
  if geometry && (name = "JF02T09V02" || name = "JF02T01V02") then
    { shape := base.shape
      data := fun y x => base.data (base.shape.1 - 1 - y) (base.shape.2 - 1 - x) }
  else base

/-- Reading a numpy view at an offset of a buffer. -/
def viewOf (res : Buf) (oy ox : Nat) : Buf :=
  fun c => res (c.1, oy + c.2.1, ox + c.2.2)

/-- Writing a kernel result computed on a `res[:, oy:oy+sy, ox:ox+sx]` view
back into the underlying buffer: inside the view extent the view contents
stand, outside the buffer is untouched (the kernels never write outside the
extent of the views the source hands them). -/
def writeView (res : Buf) (oy ox sy sx : Nat) (v : Buf) : Buf :=
  fun c =>
    if oy ≤ c.2.1 ∧ c.2.1 < oy + sy ∧ ox ≤ c.2.2 ∧ c.2.2 < ox + sx then
      v (c.1, c.2.1 - oy, c.2.2 - ox)
    else res c

/-- One iteration of the module loop of `JFDataHandler._process`. -/
def JFDataHandler._process_step (h : JFDataHandler)
    (conversion mask gap_pixels geometry parallel : Bool) (images : StackN)
    (res : Buf) (im : Nat × Int) : Buf :=
  if im.2 = -1 then res
  else
    let i := im.1
    let m := im.2.toNat
    let proc_func := h._proc_func parallel
    let oyox := h._get_final_module_coordinates m i geometry gap_pixels
    let module := sliceStackN h.detector_name images m geometry
    let module_mask : Option Mask2 :=
      if mask then h._mask.map (fun a => (sliceMask h.detector_name a i geometry).data)
      else none
    let module_g : Option Plane3Q :=
      if conversion then h._g.map (fun a => (slicePlane3 h.detector_name a i geometry).data)
      else none
    let module_p : Option Plane3Q :=
      if conversion then h._p.map (fun a => (slicePlane3 h.detector_name a i geometry).data)
      else none
    if is_stripsel h.detector_name && geometry then
      -- module_conv is an np.empty scratch buffer filled by the kernel before
      -- the remap reads it; the model starts it at zero
      let conv_buf := proc_func zeroBuf module module_g module_p module_mask gap_pixels
      let mcs := _get_shape_n_modules h.detector_name 1
      let module_conv : StackQ :=
        { shape := (images.shape.1, mcs.1, mcs.2)
          data := fun i y x => conv_buf (i, y, x) }
      writeView res oyox.1 oyox.2 STRIPSEL_SIZE_Y STRIPSEL_SIZE_X
        (_reshape_stripsel_fn parallel (viewOf res oyox.1 oyox.2) module_conv)
    else
      let sy := MODULE_SIZE_Y + (if gap_pixels then (CHIP_NUM_Y - 1) * CHIP_GAP_Y else 0)
      let sx := MODULE_SIZE_X + (if gap_pixels then (CHIP_NUM_X - 1) * CHIP_GAP_X else 0)
      writeView res oyox.1 oyox.2 sy sx
        (proc_func (viewOf res oyox.1 oyox.2) module module_g module_p module_mask gap_pixels)

/-- `JFDataHandler._process`: the module loop over `enumerate(module_map)`,
entries equal to `-1` skipped. -/
def JFDataHandler._process (h : JFDataHandler) (res : Buf) (images : StackN)
    (conversion mask gap_pixels geometry parallel : Bool) : Buf :=
  h.module_map.enum.foldl
    (h._process_step conversion mask gap_pixels geometry parallel images) res

/-- The warning text of the stripsel gap_pixels downgrade. -/
def gapWarnMsg : String := "gap_pixels flag has no effect on stripsel detectors"

/-- `np.rot90(res, axes=(1, 2))` on a stack of shape `(n, R, C)`. -/
def rot90Stack (s : StackQ) : StackQ :=
  { shape := (s.shape.1, s.shape.2.2, s.shape.2.1)
    data := fun i j k => s.data i k (s.shape.2.2 - 1 - j) }

/-- `JFDataHandler.process` on a 3-d stack (before the `_allow_2darray`
decorator): shape validation, the identity fast path, the two prerequisite
checks, the stripsel gap_pixels downgrade (with its warning), the zeroed
output allocation, `_process`, and the whole-image rotation for JF06. -/
def JFDataHandler.process_stack (h : JFDataHandler) (images : StackN)
    (conversion mask gap_pixels geometry parallel : Bool) :
    Except JFError (List String × StackQ) :=
  if (images.shape.2.1, images.shape.2.2) ≠ h._shape_in then .error .imageShape
  else if !(conversion || mask || gap_pixels || geometry) then
    .ok ([], { shape := images.shape, data := fun i y x => (images.data i y x : ℚ) })
  else if conversion && !h.can_convert then .error .gainPedestalUnset
  else if mask && h._mask.isNone then .error .pixelMaskUnset
  else
    let warns := if is_stripsel h.detector_name && gap_pixels then [gapWarnMsg] else []
    let gap_pixels := if is_stripsel h.detector_name && gap_pixels then false else gap_pixels
    let res_shape := h.get_shape_out gap_pixels geometry
    let buf := h._process zeroBuf images conversion mask gap_pixels geometry parallel
    let res : StackQ :=
      { shape := (images.shape.1, res_shape.1, res_shape.2)
        data := fun i y x => buf (i, y, x) }
    let res := if geometry && strStartsWith h.detector_name "JF06" then rot90Stack res else res
    .ok (warns, res)

/-- A 2-d integer image. -/
structure Img2N where
  shape : Nat × Nat
  data : Nat → Nat → Nat

/-- A 2-d rational image. -/
structure Img2Q where
  shape : Nat × Nat
  data : Nat → Nat → ℚ

/-- A public-interface input array: 2-d single image or 3-d stack. -/
inductive NDInN where
  | d2 (a : Img2N)
  | d3 (s : StackN)

/-- A public-interface output array. -/
inductive NDOutQ where
  | d2 (a : Img2Q)
  | d3 (s : StackQ)

/-- `array[np.newaxis]`. -/
def newaxisN (a : Img2N) : StackN :=
  { shape := (1, a.shape.1, a.shape.2), data := fun _ y x => a.data y x }

/-- `array[0]` of a result stack. -/
def frame0 (s : StackQ) : Img2Q :=
  { shape := (s.shape.2.1, s.shape.2.2), data := fun y x => s.data 0 y x }

/-- The single frame of a public-interface output. -/
def frame0Out : NDOutQ → Img2Q
  | .d2 a => a
  | .d3 s => frame0 s

/-- The `_allow_2darray` decorator: a 2-d input grows a frame axis, the
wrapped function runs on the 1-frame stack, the frame axis is stripped from
the result. -/
def _allow_2darray (f : StackN → Except JFError (List String × StackQ)) :
    NDInN → Except JFError (List String × NDOutQ)
  | .d2 a => (f (newaxisN a)).map fun r => (r.1, .d2 (frame0 r.2))
  | .d3 s => (f s).map fun r => (r.1, .d3 r.2)

/-- The public `JFDataHandler.process` (decorated with `_allow_2darray`). -/
def JFDataHandler.process (h : JFDataHandler) (images : NDInN)
    (conversion mask gap_pixels geometry parallel : Bool) :
    Except JFError (List String × NDOutQ) :=
  _allow_2darray
    (fun s => h.process_stack s conversion mask gap_pixels geometry parallel) images

/-! ## Output regions of modules in geometry mode

With `geometry=True`, `_get_final_module_coordinates` places logical module
`i` at the origin-table entry `modules_orig[name][·][i]`, and the written
block has the module extent (plus chip gaps when `gap_pixels`). -/

/-- Row origin of logical module `i` in geometry mode. -/
def moduleRegionY (name : String) (i : Nat) : Nat :=
  ((((modules_orig name).getD ([], [])).1.get? i)).getD 0

/-- Column origin of logical module `i` in geometry mode. -/
def moduleRegionX (name : String) (i : Nat) : Nat :=
  ((((modules_orig name).getD ([], [])).2.get? i)).getD 0

/-- `module_res_size_y` of `_process`. -/
def moduleResH (gap_pixels : Bool) : Nat :=
  MODULE_SIZE_Y + (if gap_pixels then (CHIP_NUM_Y - 1) * CHIP_GAP_Y else 0)

/-- `module_res_size_x` of `_process`. -/
def moduleResW (gap_pixels : Bool) : Nat :=
  MODULE_SIZE_X + (if gap_pixels then (CHIP_NUM_X - 1) * CHIP_GAP_X else 0)

/-- The output rectangle written for logical module `i` in geometry mode. -/
def inRegion (name : String) (gap_pixels : Bool) (i : Nat) (c : Coord) : Prop :=
  moduleRegionY name i ≤ c.2.1 ∧ c.2.1 < moduleRegionY name i + moduleResH gap_pixels ∧
    moduleRegionX name i ≤ c.2.2 ∧ c.2.2 < moduleRegionX name i + moduleResW gap_pixels

/-- Boolean check that the geometry-mode regions of the first `n` logical
modules are pairwise disjoint (rectangle separation in one of the axes). -/
def regionsDisjointB (name : String) (gap_pixels : Bool) (n : Nat) : Bool :=
  (List.range n).all fun i => (List.range n).all fun j =>
    decide (i = j) ||
    decide (moduleRegionY name i + moduleResH gap_pixels ≤ moduleRegionY name j) ||
    decide (moduleRegionY name j + moduleResH gap_pixels ≤ moduleRegionY name i) ||
    decide (moduleRegionX name i + moduleResW gap_pixels ≤ moduleRegionX name j) ||
    decide (moduleRegionX name j + moduleResW gap_pixels ≤ moduleRegionX name i)

/-! ## Lemmas about scatter writes -/

theorem runWrites_nil (b : Buf) : runWrites [] b = b := rfl

theorem runWrites_cons (w : Write) (ws : List Write) (b : Buf) :
    runWrites (w :: ws) b = runWrites ws (Function.update b w.1 w.2) := rfl

theorem runWrites_append (xs ys : List Write) (b : Buf) :
    runWrites (xs ++ ys) b = runWrites ys (runWrites xs b) := by
  unfold runWrites
  exact List.foldl_append _ _ _ _

/-- A coordinate no write targets keeps its initial value. -/
theorem runWrites_notin (ws : List Write) (b : Buf) (c : Coord)
    (h : ∀ w ∈ ws, w.1 ≠ c) : runWrites ws b c = b c := by
  induction ws generalizing b with
  | nil => rfl
  | cons w tl ih =>
    rw [runWrites_cons, ih _ (fun w hw => h w (List.mem_cons_of_mem _ hw))]
    rw [Function.update_apply]
    simp [Ne.symm (h w (List.mem_cons_self _ _))]

/-- The value of a coordinate after a write sequence depends on the initial
buffer only through that coordinate. -/
theorem runWrites_congr_base (ws : List Write) (b b' : Buf) (c : Coord)
    (h : b c = b' c) : runWrites ws b c = runWrites ws b' c := by
  induction ws generalizing b b' with
  | nil => exact h
  | cons w tl ih =>
    rw [runWrites_cons, runWrites_cons]
    refine ih _ _ ?_
    rw [Function.update_apply, Function.update_apply]
    split <;> simp [h]

/-- Running the frames of a `prange`-style loop sequentially is the same as
evaluating each frame independently, because every write of frame `i`
targets a coordinate whose frame index is `i`. -/
theorem runWrites_flatMap_frames (f : Nat → List Write)
    (hf : ∀ i, ∀ w ∈ f i, w.1.1 = i) (n : Nat) (b : Buf) (c : Coord) :
    runWrites ((List.range n).flatMap f) b c =
      if c.1 < n then runWrites (f c.1) b c else b c := by
  induction n with
  | zero => simp [runWrites_nil]
  | succ n ih =>
    rw [List.range_succ, List.flatMap_append, runWrites_append]
    have hprev : ∀ w ∈ (List.range n).flatMap f, w.1.1 < n := by
      intro w hw
      rw [List.mem_flatMap] at hw
      obtain ⟨i, hi, hwi⟩ := hw
      rw [List.mem_range] at hi
      rw [hf i w hwi]; exact hi
    simp only [List.flatMap_cons, List.flatMap_nil, List.append_nil]
    rcases Nat.lt_trichotomy c.1 n with hc | hc | hc
    · rw [runWrites_notin (f n) _ c
        (fun w hw hh => by have := hf n w hw; rw [hh] at this; omega)]
      rw [ih]
      simp [hc, Nat.lt_succ_of_lt hc]
    · have hbase : runWrites ((List.range n).flatMap f) b c = b c :=
        runWrites_notin _ _ _ (fun w hw => by
          have := hprev w hw
          exact fun hh => by rw [hh] at this; omega)
      rw [runWrites_congr_base _ _ b c hbase]
      simp [hc, Nat.lt_succ_self]
    · rw [runWrites_notin (f n) _ c
        (fun w hw hh => by have := hf n w hw; rw [hh] at this; omega)]
      rw [ih]
      have h1 : ¬ c.1 < n := by omega
      have h2 : ¬ c.1 < n + 1 := by omega
      simp [h1, h2]

theorem _correct_frame_writes_frame (image : StackN) (gain pedestal : Option Plane3Q)
    (mask : Option Mask2) (gap_pixels : Bool) (i1 : Nat) :
    ∀ w ∈ _correct_frame_writes image gain pedestal mask gap_pixels i1, w.1.1 = i1 := by
  intro w hw
  simp only [_correct_frame_writes, List.mem_flatMap, List.mem_map, List.mem_range] at hw
  obtain ⟨i2, _, i3, _, rfl⟩ := hw
  rfl

theorem _correct_highgain_frame_writes_frame (image : StackN)
    (gain pedestal : Option Plane3Q) (mask : Option Mask2) (gap_pixels : Bool) (i1 : Nat) :
    ∀ w ∈ _correct_highgain_frame_writes image gain pedestal mask gap_pixels i1,
      w.1.1 = i1 := by
  intro w hw
  simp only [_correct_highgain_frame_writes, List.mem_flatMap, List.mem_map,
    List.mem_range] at hw
  obtain ⟨i2, _, i3, _, rfl⟩ := hw
  rfl

theorem _reshape_stripsel_frame_writes_frame (image : StackQ) (ind : Nat) :
    ∀ w ∈ _reshape_stripsel_frame_writes image ind, w.1.1 = ind := by
  intro w hw
  simp only [_reshape_stripsel_frame_writes, List.mem_append, List.mem_flatMap,
    List.mem_map, List.mem_range, List.mem_cons, List.not_mem_nil, or_false] at hw
  rcases hw with ⟨yin, _, xin, _, rfl⟩ | ⟨igap, _, yin, _, hw⟩
  · rfl
  · rcases hw with rfl | rfl | rfl | rfl <;> rfl

/-- The serial and the frame-parallel correction kernel agree on every
input. -/
theorem _correct_eq_parallel (res : Buf) (image : StackN)
    (gain pedestal : Option Plane3Q) (mask : Option Mask2) (gap_pixels : Bool) :
    _correct res image gain pedestal mask gap_pixels =
      _correct_parallel res image gain pedestal mask gap_pixels := by
  funext c
  rw [_correct, _correct_parallel,
    runWrites_flatMap_frames _ (_correct_frame_writes_frame image gain pedestal mask gap_pixels)]

theorem _correct_highgain_eq_parallel (res : Buf) (image : StackN)
    (gain pedestal : Option Plane3Q) (mask : Option Mask2) (gap_pixels : Bool) :
    _correct_highgain res image gain pedestal mask gap_pixels =
      _correct_highgain_parallel res image gain pedestal mask gap_pixels := by
  funext c
  rw [_correct_highgain, _correct_highgain_parallel,
    runWrites_flatMap_frames _
      (_correct_highgain_frame_writes_frame image gain pedestal mask gap_pixels)]

theorem _reshape_stripsel_eq_parallel (res : Buf) (image : StackQ) :
    _reshape_stripsel res image = _reshape_stripsel_parallel res image := by
  funext c
  rw [_reshape_stripsel, _reshape_stripsel_parallel,
    runWrites_flatMap_frames _ (_reshape_stripsel_frame_writes_frame image)]

/-- Kernel dispatch is insensitive to the `parallel` flag as a function. -/
theorem _proc_func_parallel_eq (h : JFDataHandler) :
    h._proc_func true = h._proc_func false := by
  unfold JFDataHandler._proc_func
  cases hg : h.highgain <;> simp only [Bool.not_true, Bool.not_false,
    Bool.and_self, Bool.and_false, Bool.false_and, Bool.true_and, if_true, if_false]
  · funext res image gain pedestal mask gap
    exact (_correct_eq_parallel res image gain pedestal mask gap).symm
  · funext res image gain pedestal mask gap
    exact (_correct_highgain_eq_parallel res image gain pedestal mask gap).symm

theorem _reshape_stripsel_fn_parallel_eq :
    _reshape_stripsel_fn true = _reshape_stripsel_fn false := by
  unfold _reshape_stripsel_fn
  simp only [Bool.not_true, Bool.not_false, if_true, if_false]
  funext res image
  exact (_reshape_stripsel_eq_parallel res image).symm

theorem _process_parallel_eq (h : JFDataHandler) (res : Buf) (images : StackN)
    (conversion mask gap_pixels geometry : Bool) :
    h._process res images conversion mask gap_pixels geometry true =
      h._process res images conversion mask gap_pixels geometry false := by
  unfold JFDataHandler._process
  congr 1
  funext r im
  unfold JFDataHandler._process_step
  rw [_proc_func_parallel_eq, _reshape_stripsel_fn_parallel_eq]

theorem process_stack_parallel_eq (h : JFDataHandler) (images : StackN)
    (conversion mask gap_pixels geometry : Bool) :
    h.process_stack images conversion mask gap_pixels geometry true =
      h.process_stack images conversion mask gap_pixels geometry false := by
  unfold JFDataHandler.process_stack
  simp only [_process_parallel_eq]

/-! ## Helper lemmas for the module map setter -/

theorem foldl_min_lt_iff (a : Int) (xs : List Int) (x : Int) :
    xs.foldl min x < a ↔ x < a ∨ ∃ y ∈ xs, y < a := by
  induction xs generalizing x with
  | nil => simp
  | cons z zs ih =>
    rw [List.foldl_cons, ih]
    constructor
    · rintro (hm | ⟨y, hy, hya⟩)
      · rw [min_lt_iff] at hm
        rcases hm with hx | hz
        · exact Or.inl hx
        · exact Or.inr ⟨z, List.mem_cons_self _ _, hz⟩
      · exact Or.inr ⟨y, List.mem_cons_of_mem _ hy, hya⟩
    · rintro (hx | ⟨y, hy, hya⟩)
      · exact Or.inl (min_lt_iff.mpr (Or.inl hx))
      · rcases List.mem_cons.mp hy with rfl | hy
        · exact Or.inl (min_lt_iff.mpr (Or.inr hya))
        · exact Or.inr ⟨y, hy, hya⟩

theorem le_foldl_max_iff (a : Int) (xs : List Int) (x : Int) :
    a ≤ xs.foldl max x ↔ a ≤ x ∨ ∃ y ∈ xs, a ≤ y := by
  induction xs generalizing x with
  | nil => simp
  | cons z zs ih =>
    rw [List.foldl_cons, ih]
    constructor
    · rintro (hm | ⟨y, hy, hya⟩)
      · rw [le_max_iff] at hm
        rcases hm with hx | hz
        · exact Or.inl hx
        · exact Or.inr ⟨z, List.mem_cons_self _ _, hz⟩
      · exact Or.inr ⟨y, List.mem_cons_of_mem _ hy, hya⟩
    · rintro (hx | ⟨y, hy, hya⟩)
      · exact Or.inl (le_max_iff.mpr (Or.inl hx))
      · rcases List.mem_cons.mp hy with rfl | hy
        · exact Or.inl (le_max_iff.mpr (Or.inr hya))
        · exact Or.inr ⟨y, hy, hya⟩

theorem pyMin_lt_iff (a : Int) (v : List Int) (hv : v ≠ []) :
    pyMin v < a ↔ ∃ y ∈ v, y < a := by
  cases v with
  | nil => exact absurd rfl hv
  | cons x xs =>
    rw [pyMin, foldl_min_lt_iff]
    constructor
    · rintro (hx | ⟨y, hy, hya⟩)
      · exact ⟨x, List.mem_cons_self _ _, hx⟩
      · exact ⟨y, List.mem_cons_of_mem _ hy, hya⟩
    · rintro ⟨y, hy, hya⟩
      rcases List.mem_cons.mp hy with rfl | hy
      · exact Or.inl hya
      · exact Or.inr ⟨y, hy, hya⟩

theorem le_pyMax_iff (a : Int) (v : List Int) (hv : v ≠ []) :
    a ≤ pyMax v ↔ ∃ y ∈ v, a ≤ y := by
  cases v with
  | nil => exact absurd rfl hv
  | cons x xs =>
    rw [pyMax, le_foldl_max_iff]
    constructor
    · rintro (hx | ⟨y, hy, hya⟩)
      · exact ⟨x, List.mem_cons_self _ _, hx⟩
      · exact ⟨y, List.mem_cons_of_mem _ hy, hya⟩
    · rintro ⟨y, hy, hya⟩
      rcases List.mem_cons.mp hy with rfl | hy
      · exact Or.inl hya
      · exact Or.inr ⟨y, hy, hya⟩

/-! ## Claim theorems -/

/-- Claim C2 (confirmed).  For every handler state, every flag combination
and every input array, `process(..., parallel=True)` and
`process(..., parallel=False)` return identical results: the serial kernels
and their `prange`-over-frames variants are extensionally equal, because
every write of a frame stays inside that frame. -/
theorem claim_C2_parallel_serial_identical (h : JFDataHandler) (images : NDInN)
    (conversion mask gap_pixels geometry : Bool) :
    h.process images conversion mask gap_pixels geometry true =
      h.process images conversion mask gap_pixels geometry false := by
  cases images <;>
    simp only [JFDataHandler.process, _allow_2darray, process_stack_parallel_eq]

/-- Claim C3 (confirmed).  The correction kernels decode a raw 16-bit word
with `gm = word >> 14` (the top two bits) and `val = word & 0x3FFF` (the low
fourteen bits); `0xC000` decodes to stage 3, magnitude 0, and `0xBFFF` to
stage 2, magnitude `0x3FFF`. -/
theorem claim_C3_raw_word_decode (w : Nat) (hw : w < 65536) :
    gainBits w = w / 2 ^ 14 ∧ adcBits w = w % 2 ^ 14 ∧
    gainBits w < 4 ∧ adcBits w < 2 ^ 14 ∧
    gainBits 0xC000 = 3 ∧ adcBits 0xC000 = 0 ∧
    gainBits 0xBFFF = 2 ∧ adcBits 0xBFFF = 0x3FFF := by
  have hdiv : gainBits w = w / 2 ^ 14 := by
    rw [gainBits, Nat.shiftRight_eq_div_pow]
  have hmod : adcBits w = w % 2 ^ 14 := by
    rw [adcBits]
    have : (0x3FFF : Nat) = 2 ^ 14 - 1 := by norm_num
    rw [this, Nat.and_pow_two_sub_one_eq_mod]
  refine ⟨hdiv, hmod, ?_, ?_, by decide, by decide, by decide, by decide⟩
  · rw [hdiv]; omega
  · rw [hmod]; omega

/-- Witness for C3 at the boundary word `0xC000`. -/
theorem claim_C3_raw_word_decode_witness :
    (0xC000 : Nat) < 65536 ∧ gainBits 0xC000 = 3 ∧ adcBits 0xC000 = 0 := by
  refine ⟨by decide, ?_, ?_⟩
  · exact (claim_C3_raw_word_decode 0xC000 (by decide)).2.2.2.2.1
  · exact (claim_C3_raw_word_decode 0xC000 (by decide)).2.2.2.2.2.1

/-- Claim C1, amended part (corrected).  `get_shape_out(gap_pixels=False,
geometry=False)` always returns the raw per-active-module shape
`_get_shape_n_modules(number of enabled entries)` — including for an
all-disabled module map, where the enabled count is 0 and the shape
collapses to the 0-module shape rather than the nominal map-length shape
the claim asserts. -/
theorem claim_C1_shape_out_raw_amended (h : JFDataHandler) :
    h.get_shape_out false false =
      _get_shape_n_modules h.detector_name (_number_active_modules h.module_map) := by
  unfold JFDataHandler.get_shape_out JFDataHandler._get_stripsel_shape_out
    JFDataHandler._shape_in
  split <;> simp

/-- Counterexample for C1 as stated: for the valid detector `JF03T01V01`
the all-disabled map `[-1]` is accepted by the module-map setter, and
`get_shape_out(False, False)` returns the 0-module shape `(0, 1024)`, not
the nominal shape `(512, 1024)` derived from the map length. -/
theorem claim_C1_all_disabled_counterexample :
    (modules_orig "JF03T01V01").isSome = true ∧
    JFDataHandler.set_module_map
        { detector_name := "JF03T01V01", module_map := [0] } (some [-1]) =
      .ok { detector_name := "JF03T01V01", module_map := [-1] } ∧
    JFDataHandler.get_shape_out
        { detector_name := "JF03T01V01", module_map := [-1] } false false = (0, 1024) ∧
    _get_shape_n_modules "JF03T01V01" (n_modules "JF03T01V01") = (512, 1024) ∧
    ((0 : Nat), (1024 : Nat)) ≠ ((512 : Nat), (1024 : Nat)) := by
  refine ⟨by decide, rfl, by decide, by decide, by decide⟩

/-- Claim C4 (confirmed).  After `setGain`/`setPedestal` with a valid
`(4, H, W)` array: the normal view inverts each of the gain planes 0..2
element-wise and leaves the pedestal planes 0..2 unchanged, its fourth
plane aliases plane 2, and the highgain view is a single plane built from
raw plane 3 (gain inverted the same way, pedestal unchanged). -/
theorem claim_C4_calibration_views (h : JFDataHandler) (g p : Array3)
    (hg : g.shape = (4, h._shape_full.1, h._shape_full.2))
    (hp : p.shape = (4, h._shape_full.1, h._shape_full.2)) :
    (∃ h', h.setGain (some g) = .ok h' ∧
      (∃ gf, h'.g_all false = some gf ∧
        (∀ k y x, k < 3 → gf.data k y x = (g.data k y x)⁻¹) ∧
        (∀ y x, gf.data 3 y x = (g.data 2 y x)⁻¹)) ∧
      (∃ gt, h'.g_all true = some gt ∧ gt.shape.1 = 1 ∧
        (∀ y x, gt.data 0 y x = (g.data 3 y x)⁻¹))) ∧
    (∃ h', h.setPedestal (some p) = .ok h' ∧
      (∃ pf, h'.p_all false = some pf ∧
        (∀ k y x, k < 3 → pf.data k y x = p.data k y x) ∧
        (∀ y x, pf.data 3 y x = p.data 2 y x)) ∧
      (∃ pt, h'.p_all true = some pt ∧ pt.shape.1 = 1 ∧
        (∀ y x, pt.data 0 y x = p.data 3 y x))) := by
  constructor
  · simp only [JFDataHandler.setGain]
    rw [if_neg (by simp [hg])]
    refine ⟨_, rfl, ⟨_, rfl, ?_, ?_⟩, ⟨_, rfl, rfl, fun y x => rfl⟩⟩
    · intro k y x hk
      simp only [if_neg (by omega : ¬ k = 3)]
    · intro y x
      simp
  · simp only [JFDataHandler.setPedestal]
    rw [if_neg (by simp [hp])]
    refine ⟨_, rfl, ⟨_, rfl, ?_, ?_⟩, ⟨_, rfl, rfl, fun y x => rfl⟩⟩
    · intro k y x hk
      simp only [if_neg (by omega : ¬ k = 3)]
    · intro y x
      simp

/-- Witness for C4: a concrete valid gain/pedestal assignment on a fresh
`JF03T01V01` handler. -/
theorem claim_C4_calibration_views_witness :
    (Array3.shape ⟨(4, 512, 1024), fun s _ _ => (s : ℚ) + 1⟩ =
      (4, (JFDataHandler._shape_full { detector_name := "JF03T01V01", module_map := [0] }).1,
          (JFDataHandler._shape_full { detector_name := "JF03T01V01", module_map := [0] }).2)) ∧
    (∃ h', JFDataHandler.setGain { detector_name := "JF03T01V01", module_map := [0] }
        (some ⟨(4, 512, 1024), fun s _ _ => (s : ℚ) + 1⟩) = .ok h' ∧
      (∃ gf, h'.g_all false = some gf ∧
        (∀ k y x, k < 3 → gf.data k y x = ((⟨(4, 512, 1024), fun s _ _ => (s : ℚ) + 1⟩ : Array3).data k y x)⁻¹) ∧
        (∀ y x, gf.data 3 y x = ((⟨(4, 512, 1024), fun s _ _ => (s : ℚ) + 1⟩ : Array3).data 2 y x)⁻¹)) ∧
      (∃ gt, h'.g_all true = some gt ∧ gt.shape.1 = 1 ∧
        (∀ y x, gt.data 0 y x = ((⟨(4, 512, 1024), fun s _ _ => (s : ℚ) + 1⟩ : Array3).data 3 y x)⁻¹))) := by
  refine ⟨by decide, ?_⟩
  exact (claim_C4_calibration_views { detector_name := "JF03T01V01", module_map := [0] }
    ⟨(4, 512, 1024), fun s _ _ => (s : ℚ) + 1⟩ ⟨(4, 512, 1024), fun s _ _ => (s : ℚ) + 1⟩
    (by decide) (by decide)).1

/-- Claim C8 (confirmed).  Assigning `None` installs the identity module
map; a sequence is rejected at assignment exactly when its length differs
from the nominal module count or some entry lies outside `[-1, n_modules)`;
an accepted sequence is stored as given (duplicates included). -/
theorem claim_C8_module_map_setter (h : JFDataHandler) (v : List Int)
    (hn : 0 < n_modules h.detector_name) :
    (h.set_module_map none =
      .ok { h with module_map := (List.range (n_modules h.detector_name)).map Int.ofNat }) ∧
    ((∃ e, h.set_module_map (some v) = .error e) ↔
      (v.length ≠ n_modules h.detector_name ∨
        ∃ x ∈ v, x < -1 ∨ (n_modules h.detector_name : Int) ≤ x)) ∧
    (v.length = n_modules h.detector_name →
      (∀ x ∈ v, -1 ≤ x ∧ x < (n_modules h.detector_name : Int)) →
      h.set_module_map (some v) = .ok { h with module_map := v }) := by
  refine ⟨rfl, ?_, ?_⟩
  · simp only [JFDataHandler.set_module_map]
    by_cases hl : v.length = n_modules h.detector_name
    · have hv : v ≠ [] := by
        intro hnil
        rw [hnil] at hl
        simp at hl
        omega
      rw [if_neg (by simp [hl])]
      by_cases hr : pyMin v < -1 ∨ (n_modules h.detector_name : Int) ≤ pyMax v
      · rw [if_pos (by
          rcases hr with hr | hr
          · simp [hr]
          · simp [hr])]
        constructor
        · intro _
          right
          rcases hr with hr | hr
          · obtain ⟨y, hy, hya⟩ := (pyMin_lt_iff _ v hv).mp hr
            exact ⟨y, hy, Or.inl hya⟩
          · obtain ⟨y, hy, hya⟩ := (le_pyMax_iff _ v hv).mp hr
            exact ⟨y, hy, Or.inr hya⟩
        · intro _
          exact ⟨_, rfl⟩
      · rw [if_neg (by
          push_neg at hr
          simp [not_lt.mpr hr.1, not_le.mpr hr.2])]
        constructor
        · rintro ⟨e, he⟩
          exact absurd he (by simp)
        · rintro (hlen | ⟨x, hx, hout⟩)
          · exact absurd hl hlen
          · exfalso
            push_neg at hr
            rcases hout with hlt | hge
            · exact absurd ((pyMin_lt_iff _ v hv).mpr ⟨x, hx, hlt⟩) (not_lt.mpr hr.1)
            · exact absurd ((le_pyMax_iff _ v hv).mpr ⟨x, hx, hge⟩) (not_le.mpr hr.2)
    · rw [if_pos (by simp [hl])]
      constructor
      · intro _
        exact Or.inl hl
      · intro _
        exact ⟨_, rfl⟩
  · intro hl hbound
    simp only [JFDataHandler.set_module_map]
    have hv : v ≠ [] := by
      intro hnil
      rw [hnil] at hl
      simp at hl
      omega
    rw [if_neg (by simp [hl]), if_neg ?_]
    simp only [Bool.or_eq_true, decide_eq_true_eq, not_or]
    constructor
    · intro hmin
      obtain ⟨y, hy, hya⟩ := (pyMin_lt_iff _ v hv).mp hmin
      exact absurd (hbound y hy).1 (not_le.mpr hya)
    · intro hmax
      obtain ⟨y, hy, hya⟩ := (le_pyMax_iff _ v hv).mp hmax
      exact absurd (hbound y hy).2 (not_lt.mpr hya)

/-- Witness for C8: on a fresh `JF07T32V01` handler the identity map is
installed by `None`, the short map `[0]` is rejected, and a duplicate-slot
map of full length is accepted verbatim. -/
theorem claim_C8_module_map_setter_witness :
    (0 < n_modules "JF07T32V01") ∧
    ((∃ e, JFDataHandler.set_module_map { detector_name := "JF07T32V01", module_map := [] }
        (some [0]) = .error e) ↔
      (([0] : List Int).length ≠ n_modules "JF07T32V01" ∨
        ∃ x ∈ ([0] : List Int), x < -1 ∨ (n_modules "JF07T32V01" : Int) ≤ x)) := by
  refine ⟨by decide, ?_⟩
  exact (claim_C8_module_map_setter { detector_name := "JF07T32V01", module_map := [] }
    [0] (by decide)).2.1

/-- Claim C6 (confirmed).  `process` raises the shape error first; once the
shape matches, requesting conversion without gain/pedestal set, or masking
without a pixel mask set, raises the corresponding state error before any
output is produced (the embedding returns `Except.error`, which carries no
output; `process_stack` is a pure function of the handler and the images,
so neither is modified by the failed call). -/
theorem claim_C6_process_state_errors (h : JFDataHandler) (images : StackN)
    (conversion mask gap_pixels geometry parallel : Bool) :
    ((images.shape.2.1, images.shape.2.2) ≠ h._shape_in →
      h.process_stack images conversion mask gap_pixels geometry parallel =
        .error .imageShape) ∧
    ((images.shape.2.1, images.shape.2.2) = h._shape_in →
      (conversion = true → h.can_convert = false →
        h.process_stack images conversion mask gap_pixels geometry parallel =
          .error .gainPedestalUnset) ∧
      (mask = true → h._mask = none → (conversion && !h.can_convert) = false →
        h.process_stack images conversion mask gap_pixels geometry parallel =
          .error .pixelMaskUnset)) := by
  constructor
  · intro hne
    unfold JFDataHandler.process_stack
    rw [if_pos hne]
  · intro hsh
    constructor
    · intro hc hcc
      unfold JFDataHandler.process_stack
      rw [if_neg (by simp [hsh]), if_neg (by simp [hc]), if_pos (by simp [hc, hcc])]
    · intro hm hmm hcf
      unfold JFDataHandler.process_stack
      rw [if_neg (by simp [hsh]), if_neg (by simp [hm]), if_neg (by simp [hcf]),
        if_pos (by simp [hm, hmm])]

/-- Witness for C6: a fresh `JF03T01V01` handler (no gain/pedestal set)
with a correctly shaped input errors out of `process(conversion=True)`. -/
theorem claim_C6_process_state_errors_witness :
    ((((⟨(1, 512, 1024), fun _ _ _ => 0⟩ : StackN)).shape.2.1,
      ((⟨(1, 512, 1024), fun _ _ _ => 0⟩ : StackN)).shape.2.2) =
        JFDataHandler._shape_in { detector_name := "JF03T01V01", module_map := [0] }) ∧
    JFDataHandler.process_stack { detector_name := "JF03T01V01", module_map := [0] }
        ⟨(1, 512, 1024), fun _ _ _ => 0⟩ true false false false false =
      .error .gainPedestalUnset := by
  refine ⟨by decide, ?_⟩
  exact ((claim_C6_process_state_errors { detector_name := "JF03T01V01", module_map := [0] }
    ⟨(1, 512, 1024), fun _ _ _ => 0⟩ true false false false false).2 (by decide)).1 rfl rfl

/-- Claim C10 (confirmed).  For every 2-dimensional input, the decorated
`process` returns the single frame of processing the corresponding 1-frame
stack: the `_allow_2darray` wrapper adds a frame axis, runs the stack
pipeline, and strips the frame axis from the result. -/
theorem claim_C10_single_image (h : JFDataHandler) (a : Img2N)
    (conversion mask gap_pixels geometry parallel : Bool) :
    h.process (.d2 a) conversion mask gap_pixels geometry parallel =
      (h.process (.d3 (newaxisN a)) conversion mask gap_pixels geometry parallel).map
        (fun r => (r.1, .d2 (frame0Out r.2))) := by
  unfold JFDataHandler.process _allow_2darray
  cases hr : h.process_stack (newaxisN a) conversion mask gap_pixels geometry parallel <;>
    simp [hr, frame0Out, Except.map]

/-- Claim C5 (confirmed).  The stripsel bulk remap
`(yin, xin) ↦ (yin/3, (xin/256)*774 + (xin mod 256)*3 + (yin mod 3))` is
injective on the 256x1024 input and lands inside the 86x3090 output block;
the gap-pixel writes stay inside the three 12-column bands
`[igap*774 + 765, igap*774 + 776]` around the inter-chip gaps (and inside
the row range), so any bulk pixel they overwrite lies inside those bands. -/
theorem claim_C5_stripsel_remap (yin xin yin' xin' igap : Nat)
    (hy : yin < 256) (hx : xin < 1024) (hy' : yin' < 256) (hx' : xin' < 1024)
    (hg : igap < 3) :
    (stripselYout yin < STRIPSEL_SIZE_Y ∧ stripselXout yin xin < STRIPSEL_SIZE_X) ∧
    ((stripselYout yin = stripselYout yin' ∧
        stripselXout yin xin = stripselXout yin' xin') →
      (yin = yin' ∧ xin = xin')) ∧
    (stripselGapYout yin < STRIPSEL_SIZE_Y ∧
      stripselGapYout yin + 1 < STRIPSEL_SIZE_Y) ∧
    (igap * 774 + 765 ≤ stripselGapXoutL igap yin ∧
      stripselGapXoutL igap yin ≤ igap * 774 + 776 ∧
      igap * 774 + 765 ≤ stripselGapXoutR igap yin ∧
      stripselGapXoutR igap yin ≤ igap * 774 + 776 ∧
      stripselGapXoutL igap yin < STRIPSEL_SIZE_X ∧
      stripselGapXoutR igap yin < STRIPSEL_SIZE_X) ∧
    ((stripselXout yin xin = stripselGapXoutL igap yin' ∨
        stripselXout yin xin = stripselGapXoutR igap yin') →
      ∃ j, j < 3 ∧ j * 774 + 765 ≤ stripselXout yin xin ∧
        stripselXout yin xin ≤ j * 774 + 776) := by
  unfold stripselYout stripselXout stripselGapYout stripselGapXoutL stripselGapXoutR
    STRIPSEL_SIZE_X STRIPSEL_SIZE_Y
  refine ⟨⟨by omega, by omega⟩, fun hinj => by omega, ⟨by omega, by omega⟩,
    ⟨by omega, by omega, by omega, by omega, by omega, by omega⟩, fun hgap => ⟨igap, hg, ?_, ?_⟩⟩
  · rcases hgap with hh | hh <;> omega
  · rcases hgap with hh | hh <;> omega

/-- Witness for C5 at a concrete interior pixel and gap band. -/
theorem claim_C5_stripsel_remap_witness :
    ((5 : Nat) < 256 ∧ (300 : Nat) < 1024 ∧ (1 : Nat) < 3) ∧
    stripselYout 5 < STRIPSEL_SIZE_Y ∧ stripselXout 5 300 < STRIPSEL_SIZE_X ∧
    stripselGapXoutL 1 5 ≤ 1 * 774 + 776 := by
  refine ⟨⟨by decide, by decide, by decide⟩, ?_, ?_, ?_⟩
  · exact (claim_C5_stripsel_remap 5 300 5 300 1 (by decide) (by decide) (by decide)
      (by decide) (by decide)).1.1
  · exact (claim_C5_stripsel_remap 5 300 5 300 1 (by decide) (by decide) (by decide)
      (by decide) (by decide)).1.2
  · exact (claim_C5_stripsel_remap 5 300 5 300 1 (by decide) (by decide) (by decide)
      (by decide) (by decide)).2.2.2.1.2.1

/-- Claim C7, amended part (corrected).  On a stripsel detector a
`gap_pixels=True` call does not fail: whenever at least one of conversion,
mask or geometry is also requested, it returns exactly the result of the
`gap_pixels=False` call, with the downgrade warning prepended to the
warning list (and a successful `gap_pixels=False` call carries no warning,
so the downgraded call warns exactly once).  The amendment excludes the
degenerate case `conversion=mask=geometry=False`, where the
`gap_pixels=False` call takes the identity fast path but the
`gap_pixels=True` call runs the module-map assembly (see the
counterexample). -/
theorem claim_C7_stripsel_gap_downgrade_amended (h : JFDataHandler) (images : StackN)
    (conversion mask geometry parallel : Bool)
    (hs : is_stripsel h.detector_name = true)
    (hflags : (conversion || mask || geometry) = true) :
    (h.process_stack images conversion mask true geometry parallel =
      (h.process_stack images conversion mask false geometry parallel).map
        (fun r => (gapWarnMsg :: r.1, r.2))) ∧
    (∀ w s, h.process_stack images conversion mask true geometry parallel = .ok (w, s) →
      w = [gapWarnMsg]) := by
  have key : h.process_stack images conversion mask true geometry parallel =
      (h.process_stack images conversion mask false geometry parallel).map
        (fun r => (gapWarnMsg :: r.1, r.2)) := by
    unfold JFDataHandler.process_stack
    by_cases h1 : (images.shape.2.1, images.shape.2.2) ≠ h._shape_in
    · rw [if_pos h1, if_pos h1]; rfl
    · rw [if_neg h1, if_neg h1]
      rw [if_neg (show ¬(!(conversion || mask || true || geometry)) = true by simp)]
      rw [if_neg (show ¬(!(conversion || mask || false || geometry)) = true by
        rw [Bool.or_false, hflags]
        simp)]
      by_cases h2 : (conversion && !h.can_convert) = true
      · rw [if_pos h2, if_pos h2]; rfl
      · rw [if_neg h2, if_neg h2]
        by_cases h3 : (mask && h._mask.isNone) = true
        · rw [if_pos h3, if_pos h3]; rfl
        · rw [if_neg h3, if_neg h3]
          simp only [hs, Bool.true_and, Bool.and_false, Bool.and_true, if_true, if_false]
          rfl
  refine ⟨key, ?_⟩
  intro w s hok
  rw [key] at hok
  cases hr : h.process_stack images conversion mask false geometry parallel with
  | error e => rw [hr] at hok; exact absurd hok (by simp [Except.map])
  | ok r =>
    rw [hr] at hok
    simp only [Except.map, Except.ok.injEq] at hok
    have hr2 : r.1 = [] := by
      revert hr
      unfold JFDataHandler.process_stack
      by_cases h1 : (images.shape.2.1, images.shape.2.2) ≠ h._shape_in
      · rw [if_pos h1]; intro hh; cases hh
      · rw [if_neg h1]
        by_cases hfast : (!(conversion || mask || false || geometry)) = true
        · rw [if_pos hfast]
          intro hh
          cases hh
          rfl
        · rw [if_neg (by simp_all)]
          by_cases h2 : (conversion && !h.can_convert) = true
          · rw [if_pos h2]; intro hh; cases hh
          · rw [if_neg h2]
            by_cases h3 : (mask && h._mask.isNone) = true
            · rw [if_pos h3]; intro hh; cases hh
            · rw [if_neg h3]
              simp only [Bool.and_false, if_false]
              intro hh
              cases hh
              rfl
    cases hok
    rw [hr2]

/-- Witness for the amended C7 on a concrete stripsel-named handler with
geometry requested. -/
theorem claim_C7_stripsel_gap_downgrade_amended_witness :
    is_stripsel "JF05T02V01" = true ∧
    ((false || false || true) = true) ∧
    (JFDataHandler.process_stack { detector_name := "JF05T02V01", module_map := [0, -1] }
        ⟨(1, 512, 1024), fun _ _ _ => 1⟩ false false true true false =
      (JFDataHandler.process_stack { detector_name := "JF05T02V01", module_map := [0, -1] }
          ⟨(1, 512, 1024), fun _ _ _ => 1⟩ false false false true false).map
        (fun r => (gapWarnMsg :: r.1, r.2))) := by
  refine ⟨by decide, by decide, ?_⟩
  exact (claim_C7_stripsel_gap_downgrade_amended
    { detector_name := "JF05T02V01", module_map := [0, -1] }
    ⟨(1, 512, 1024), fun _ _ _ => 1⟩ false false true false (by decide) (by decide)).1

/-- Counterexample for C7 as stated: for the stripsel-named detector
`JF05T02V01` (rejected by the constructor in this snapshot, whose geometry
table carries no stripsel entry, but processed by `process` exactly as the
source defines it) with module map `[1, -1]` and all of conversion, mask
and geometry off, the `gap_pixels=True` call runs the module assembly and
leaves output block 0 zero, while the `gap_pixels=False` call takes the
identity fast path and returns the input unchanged: the results differ at
the in-range pixel (0,0,0), though the shapes agree. -/
theorem claim_C7_counterexample :
    is_stripsel "JF05T02V01" = true ∧
    JFDataHandler.init "JF05T02V01" = .error .unknownDetector ∧
    (JFDataHandler.process_stack { detector_name := "JF05T02V01", module_map := [1, -1] }
        ⟨(1, 512, 1024), fun _ _ _ => 1⟩ false false true false false).toOption.map
      (fun r => r.2.data 0 0 0) = some 0 ∧
    (JFDataHandler.process_stack { detector_name := "JF05T02V01", module_map := [1, -1] }
        ⟨(1, 512, 1024), fun _ _ _ => 1⟩ false false false false false).toOption.map
      (fun r => r.2.data 0 0 0) = some 1 ∧
    (JFDataHandler.process_stack { detector_name := "JF05T02V01", module_map := [1, -1] }
        ⟨(1, 512, 1024), fun _ _ _ => 1⟩ false false true false false).toOption.map
      (fun r => r.2.shape) =
    (JFDataHandler.process_stack { detector_name := "JF05T02V01", module_map := [1, -1] }
        ⟨(1, 512, 1024), fun _ _ _ => 1⟩ false false false false false).toOption.map
      (fun r => r.2.shape) := by
  refine ⟨by decide, rfl, ?_, by decide, ?_⟩ <;> decide

/-! ## Helper lemmas for the module-region analysis (claim C9) -/

theorem regionsDisjoint_spec (name : String) (gap_pixels : Bool) (n : Nat)
    (hd : regionsDisjointB name gap_pixels n = true) :
    ∀ i j, i < n → j < n → i ≠ j → ∀ c : Coord,
      inRegion name gap_pixels i c → ¬ inRegion name gap_pixels j c := by
  intro i j hi hj hij c hci hcj
  unfold regionsDisjointB at hd
  rw [List.all_eq_true] at hd
  have hrow := hd i (List.mem_range.mpr hi)
  rw [List.all_eq_true] at hrow
  have hcell := hrow j (List.mem_range.mpr hj)
  simp only [Bool.or_eq_true, decide_eq_true_eq] at hcell
  unfold inRegion at hci hcj
  rcases hcell with ((((h | h) | h) | h) | h) <;> omega

theorem valid_name_cases (name : String) (hv : (modules_orig name).isSome = true) :
    name = "JF03T01V01" ∨ name = "JF06T32V01" ∨ name = "JF07T32V01" := by
  unfold modules_orig at hv
  split_ifs at hv with h1 h2 h3
  · exact Or.inl h1
  · exact Or.inr (Or.inl h2)
  · exact Or.inr (Or.inr h3)
  · simp at hv

theorem valid_name_not_stripsel (name : String)
    (hv : (modules_orig name).isSome = true) : is_stripsel name = false := by
  rcases valid_name_cases name hv with rfl | rfl | rfl <;> decide

theorem valid_name_not_jf02 (name : String) (hv : (modules_orig name).isSome = true) :
    name ≠ "JF02T09V01" ∧ name ≠ "JF02T09V02" ∧ name ≠ "JF02T01V02" := by
  rcases valid_name_cases name hv with rfl | rfl | rfl <;> exact ⟨by decide, by decide, by decide⟩

theorem valid_name_regions_disjoint (name : String) (gap_pixels : Bool)
    (hv : (modules_orig name).isSome = true) :
    regionsDisjointB name gap_pixels (n_modules name) = true := by
  rcases valid_name_cases name hv with rfl | rfl | rfl <;> cases gap_pixels <;> decide

/-- A fold whose steps all preserve the value at `c` preserves it overall. -/
theorem foldl_invariant_at {α : Type} (S : Buf → α → Buf) (l : List α) (c : Coord)
    (hstep : ∀ a ∈ l, ∀ b : Buf, S b a c = b c) (b : Buf) :
    l.foldl S b c = b c := by
  induction l generalizing b with
  | nil => rfl
  | cons a tl ih =>
    rw [List.foldl_cons, ih (fun a ha => hstep a (List.mem_cons_of_mem _ ha)),
      hstep a (List.mem_cons_self _ _)]

/-- Two folds agree at `c` when their step lists are pointwise related by
value-preservation at `c`. -/
theorem foldl_congr_at {α β : Type} (S : Buf → α → Buf) (S' : Buf → β → Buf)
    (l : List α) (l' : List β) (c : Coord)
    (hrel : List.Forall₂ (fun a a' => ∀ b b' : Buf, b c = b' c → S b a c = S' b' a' c) l l')
    (b b' : Buf) (hb : b c = b' c) :
    l.foldl S b c = l'.foldl S' b' c := by
  induction hrel generalizing b b' with
  | nil => exact hb
  | cons h₁ _ ih => exact ih _ _ (h₁ b b' hb)

/-- A disabled module map entry is skipped. -/
theorem _process_step_skip (h : JFDataHandler)
    (conversion mask gap_pixels geometry parallel : Bool) (images : StackN)
    (b : Buf) (j : Nat) :
    h._process_step conversion mask gap_pixels geometry parallel images b (j, -1) = b := by
  unfold JFDataHandler._process_step
  rw [if_pos rfl]

/-- On a non-stripsel detector with geometry requested, the module-loop step
is a `writeView` of the dispatched kernel on the module's output region. -/
theorem _process_step_eq (h : JFDataHandler)
    (conversion mask gap_pixels parallel : Bool) (images : StackN)
    (b : Buf) (j : Nat) (m : Int) (hm : m ≠ -1)
    (hns : is_stripsel h.detector_name = false) :
    h._process_step conversion mask gap_pixels true parallel images b (j, m) =
      writeView b (moduleRegionY h.detector_name j) (moduleRegionX h.detector_name j)
        (moduleResH gap_pixels) (moduleResW gap_pixels)
        (h._proc_func parallel
          (viewOf b (moduleRegionY h.detector_name j) (moduleRegionX h.detector_name j))
          (sliceStackN h.detector_name images m.toNat true)
          (if conversion then
            h._g.map (fun a => (slicePlane3 h.detector_name a j true).data) else none)
          (if conversion then
            h._p.map (fun a => (slicePlane3 h.detector_name a j true).data) else none)
          (if mask then
            h._mask.map (fun a => (sliceMask h.detector_name a j true).data) else none)
          gap_pixels) := by
  unfold JFDataHandler._process_step
  rw [if_neg hm]
  simp only [hns, Bool.false_and, if_false]
  rfl

theorem flatMap_congr_mem {β γ : Type} (l : List β) (f g : β → List γ)
    (h : ∀ a ∈ l, f a = g a) : l.flatMap f = l.flatMap g := by
  induction l with
  | nil => rfl
  | cons a tl ih =>
    rw [List.flatMap_cons, List.flatMap_cons, h a (List.mem_cons_self _ _),
      ih (fun a ha => h a (List.mem_cons_of_mem _ ha))]

theorem _correct_frame_writes_congr (im im' : StackN) (g p : Option Plane3Q)
    (mk : Option Mask2) (gap : Bool) (i1 : Nat)
    (hsh : im.shape = im'.shape)
    (hdata : ∀ i2 i3, i2 < im.shape.2.1 → i3 < im.shape.2.2 →
      im.data i1 i2 i3 = im'.data i1 i2 i3) :
    _correct_frame_writes im g p mk gap i1 = _correct_frame_writes im' g p mk gap i1 := by
  unfold _correct_frame_writes
  rw [show im'.shape.2.1 = im.shape.2.1 by rw [hsh],
    show im'.shape.2.2 = im.shape.2.2 by rw [hsh]]
  apply flatMap_congr_mem
  intro i2 hi2
  apply List.map_congr_left
  intro i3 hi3
  have hval := hdata i2 i3 (List.mem_range.mp hi2) (List.mem_range.mp hi3)
  simp only [_correct_value, hval]

theorem _correct_highgain_frame_writes_congr (im im' : StackN) (g p : Option Plane3Q)
    (mk : Option Mask2) (gap : Bool) (i1 : Nat)
    (hsh : im.shape = im'.shape)
    (hdata : ∀ i2 i3, i2 < im.shape.2.1 → i3 < im.shape.2.2 →
      im.data i1 i2 i3 = im'.data i1 i2 i3) :
    _correct_highgain_frame_writes im g p mk gap i1 =
      _correct_highgain_frame_writes im' g p mk gap i1 := by
  unfold _correct_highgain_frame_writes
  rw [show im'.shape.2.1 = im.shape.2.1 by rw [hsh],
    show im'.shape.2.2 = im.shape.2.2 by rw [hsh]]
  apply flatMap_congr_mem
  intro i2 hi2
  apply List.map_congr_left
  intro i3 hi3
  have hval := hdata i2 i3 (List.mem_range.mp hi2) (List.mem_range.mp hi3)
  simp only [_correct_highgain_value, hval]

/-- The serially dispatched kernel reads the initial buffer only at the
written coordinate, and its writes depend only on the in-shape input data. -/
theorem _proc_func_serial_congr_at (h : JFDataHandler) (im im' : StackN)
    (g p : Option Plane3Q) (mk : Option Mask2) (gap : Bool) (b b' : Buf) (l : Coord)
    (hsh : im.shape = im'.shape)
    (hdata : ∀ i1 i2 i3, i1 < im.shape.1 → i2 < im.shape.2.1 → i3 < im.shape.2.2 →
      im.data i1 i2 i3 = im'.data i1 i2 i3)
    (hb : b l = b' l) :
    h._proc_func false b im g p mk gap l = h._proc_func false b' im' g p mk gap l := by
  have h1 : im'.shape.1 = im.shape.1 := by rw [hsh]
  unfold JFDataHandler._proc_func
  cases hhg : h.highgain <;>
    simp only [Bool.not_false, Bool.not_true, Bool.and_true, Bool.and_false,
      Bool.false_and, Bool.true_and, Bool.false_eq_true, if_true, if_false]
  · unfold _correct
    have hws : (List.range im'.shape.1).flatMap (_correct_frame_writes im' g p mk gap) =
        (List.range im.shape.1).flatMap (_correct_frame_writes im g p mk gap) := by
      rw [h1]
      apply flatMap_congr_mem
      intro i1 hi1
      exact (_correct_frame_writes_congr im im' g p mk gap i1 hsh
        (fun i2 i3 h2 h3 => hdata i1 i2 i3 (List.mem_range.mp hi1) h2 h3)).symm
    rw [hws]
    exact runWrites_congr_base _ _ _ _ hb
  · unfold _correct_highgain
    have hws : (List.range im'.shape.1).flatMap (_correct_highgain_frame_writes im' g p mk gap) =
        (List.range im.shape.1).flatMap (_correct_highgain_frame_writes im g p mk gap) := by
      rw [h1]
      apply flatMap_congr_mem
      intro i1 hi1
      exact (_correct_highgain_frame_writes_congr im im' g p mk gap i1 hsh
        (fun i2 i3 h2 h3 => hdata i1 i2 i3 (List.mem_range.mp hi1) h2 h3)).symm
    rw [hws]
    exact runWrites_congr_base _ _ _ _ hb

/-- A module-loop step never touches a coordinate outside its region. -/
theorem _process_step_away (h : JFDataHandler)
    (conversion mask gap_pixels parallel : Bool) (images : StackN)
    (b : Buf) (j : Nat) (m : Int) (c : Coord)
    (hns : is_stripsel h.detector_name = false)
    (hc : ¬ inRegion h.detector_name gap_pixels j c) :
    h._process_step conversion mask gap_pixels true parallel images b (j, m) c = b c := by
  by_cases hm : m = -1
  · subst hm
    rw [_process_step_skip]
  · rw [_process_step_eq h conversion mask gap_pixels parallel images b j m hm hns]
    unfold writeView
    unfold inRegion at hc
    rw [if_neg hc]

/-- The module-loop step does not depend on the stored module map. -/
theorem _process_step_module_map_irrel (h : JFDataHandler) (mm' : List Int)
    (conversion mask gap_pixels geometry parallel : Bool) (images : StackN) :
    JFDataHandler._process_step { h with module_map := mm' }
        conversion mask gap_pixels geometry parallel images =
      h._process_step conversion mask gap_pixels geometry parallel images := rfl

theorem sliceStackN_std_eq (name : String) (s : StackN) (m : Nat)
    (hn1 : name ≠ "JF02T09V01") (hn2 : name ≠ "JF02T09V02") (hn3 : name ≠ "JF02T01V02") :
    sliceStackN name s m true =
      { shape := (s.shape.1,
          min ((m + 1) * MODULE_SIZE_Y) s.shape.2.1 - min (m * MODULE_SIZE_Y) s.shape.2.1,
          s.shape.2.2),
        data := fun i y x => s.data i (m * MODULE_SIZE_Y + y) x } := by
  unfold sliceStackN
  split_ifs with h1 h2 h3 h4
  all_goals first
    | rfl
    | exact absurd (by assumption : name = "JF02T09V01") hn1
    | (exfalso
       have hor : (true && (decide (name = "JF02T09V02") ||
           decide (name = "JF02T01V02"))) = true := by assumption
       simp only [Bool.true_and, Bool.or_eq_true, decide_eq_true_eq] at hor
       rcases hor with hh | hh
       · exact hn2 hh
       · exact hn3 hh)

theorem sliceStackN_shape_std (name : String) (s : StackN) (m : Nat)
    (hn1 : name ≠ "JF02T09V01") (hn2 : name ≠ "JF02T09V02") (hn3 : name ≠ "JF02T01V02")
    (hfit : (m + 1) * MODULE_SIZE_Y ≤ s.shape.2.1) :
    (sliceStackN name s m true).shape = (s.shape.1, MODULE_SIZE_Y, s.shape.2.2) := by
  rw [sliceStackN_std_eq name s m hn1 hn2 hn3]
  have hb : min ((m + 1) * MODULE_SIZE_Y) s.shape.2.1 = (m + 1) * MODULE_SIZE_Y :=
    Nat.min_eq_left hfit
  have ha : min (m * MODULE_SIZE_Y) s.shape.2.1 = m * MODULE_SIZE_Y :=
    Nat.min_eq_left (le_trans (by unfold MODULE_SIZE_Y CHIP_NUM_Y CHIP_SIZE_Y; omega) hfit)
  simp only [Prod.mk.injEq, true_and, and_true]
  rw [hb, ha]
  unfold MODULE_SIZE_Y CHIP_NUM_Y CHIP_SIZE_Y
  omega

theorem sliceStackN_data_std (name : String) (s : StackN) (m : Nat)
    (hn1 : name ≠ "JF02T09V01") (hn2 : name ≠ "JF02T09V02") (hn3 : name ≠ "JF02T01V02")
    (i y x : Nat) :
    (sliceStackN name s m true).data i y x = s.data i (m * MODULE_SIZE_Y + y) x := by
  rw [sliceStackN_std_eq name s m hn1 hn2 hn3]

/-- The step of the enabled module `j` writes the same value at any of its
region's coordinates in two runs whose inputs agree on module `j`'s raw
data block. -/
theorem _process_step_value_congr (h : JFDataHandler)
    (images images' : StackN) (conversion mask gap_pixels : Bool)
    (j : Nat) (mv : Int) (c : Coord) (b b' : Buf)
    (hv : (modules_orig h.detector_name).isSome = true)
    (hmv : mv ≠ -1)
    (hfr : images.shape.1 = images'.shape.1)
    (hxdim : images.shape.2.2 = images'.shape.2.2)
    (hfitj : (mv.toNat + 1) * MODULE_SIZE_Y ≤ images.shape.2.1)
    (hfitj' : (mv.toNat + 1) * MODULE_SIZE_Y ≤ images'.shape.2.1)
    (hagreej : ∀ i1 y x, i1 < images.shape.1 → y < MODULE_SIZE_Y → x < images.shape.2.2 →
      images.data i1 (mv.toNat * MODULE_SIZE_Y + y) x =
        images'.data i1 (mv.toNat * MODULE_SIZE_Y + y) x)
    (hb : b c = b' c) :
    h._process_step conversion mask gap_pixels true false images b (j, mv) c =
      h._process_step conversion mask gap_pixels true false images' b' (j, mv) c := by
  obtain ⟨hn1, hn2, hn3⟩ := valid_name_not_jf02 _ hv
  have hns := valid_name_not_stripsel _ hv
  rw [_process_step_eq h conversion mask gap_pixels false images b j mv hmv hns,
    _process_step_eq h conversion mask gap_pixels false images' b' j mv hmv hns]
  unfold writeView
  by_cases hcon : moduleRegionY h.detector_name j ≤ c.2.1 ∧
      c.2.1 < moduleRegionY h.detector_name j + moduleResH gap_pixels ∧
      moduleRegionX h.detector_name j ≤ c.2.2 ∧
      c.2.2 < moduleRegionX h.detector_name j + moduleResW gap_pixels
  · rw [if_pos hcon, if_pos hcon]
    have hshape : (sliceStackN h.detector_name images mv.toNat true).shape =
        (sliceStackN h.detector_name images' mv.toNat true).shape := by
      rw [sliceStackN_shape_std _ _ _ hn1 hn2 hn3 hfitj,
        sliceStackN_shape_std _ _ _ hn1 hn2 hn3 hfitj', hfr, hxdim]
    apply _proc_func_serial_congr_at h _ _ _ _ _ _ _ _ _ hshape
    · intro i1 i2 i3 h1 h2 h3
      rw [sliceStackN_shape_std _ _ _ hn1 hn2 hn3 hfitj] at h1 h2 h3
      rw [sliceStackN_data_std _ _ _ hn1 hn2 hn3, sliceStackN_data_std _ _ _ hn1 hn2 hn3]
      exact hagreej i1 i2 i3 h1 h2 h3
    · unfold viewOf
      obtain ⟨hc1, hc2, hc3, hc4⟩ := hcon
      have he2 : moduleRegionY h.detector_name j + (c.2.1 - moduleRegionY h.detector_name j) =
          c.2.1 := by omega
      have he3 : moduleRegionX h.detector_name j + (c.2.2 - moduleRegionX h.detector_name j) =
          c.2.2 := by omega
      rw [he2, he3]
      exact hb
  · rw [if_neg hcon, if_neg hcon]
    exact hb

/-- Core of claim C9, for the serial kernel: with geometry requested on a
valid detector, a module map disabling entry `i₀` leaves the whole output
region of logical module `i₀` untouched (zero), and every other enabled
module's region carries exactly the value it gets when `i₀` is enabled
instead (on inputs agreeing on the raw blocks of the other modules). -/
theorem c9_core (h : JFDataHandler) (mm' : List Int) (images images' : StackN)
    (conversion mask gap_pixels : Bool) (i₀ : Nat) (m₀ : Int)
    (hv : (modules_orig h.detector_name).isSome = true)
    (hlen : h.module_map.length = n_modules h.detector_name)
    (hlen' : mm'.length = h.module_map.length)
    (hi₀ : h.module_map[i₀]? = some (-1))
    (hm₀ : mm'[i₀]? = some m₀)
    (hm₀ne : m₀ ≠ -1)
    (hmm' : ∀ j, j < mm'.length → j ≠ i₀ → mm'[j]? = h.module_map[j]?)
    (hfr : images.shape.1 = images'.shape.1)
    (hxdim : images.shape.2.2 = images'.shape.2.2)
    (hfit : ∀ mv ∈ h.module_map, mv ≠ -1 →
      (mv.toNat + 1) * MODULE_SIZE_Y ≤ images.shape.2.1)
    (hfit' : ∀ mv ∈ mm', mv ≠ -1 →
      (mv.toNat + 1) * MODULE_SIZE_Y ≤ images'.shape.2.1)
    (hagree : ∀ mv ∈ h.module_map, mv ≠ -1 →
      ∀ i1 y x, i1 < images.shape.1 → y < MODULE_SIZE_Y → x < images.shape.2.2 →
        images.data i1 (mv.toNat * MODULE_SIZE_Y + y) x =
          images'.data i1 (mv.toNat * MODULE_SIZE_Y + y) x) :
    (∀ c : Coord, inRegion h.detector_name gap_pixels i₀ c →
      h._process zeroBuf images conversion mask gap_pixels true false c = 0) ∧
    (∀ j mv, j ≠ i₀ → h.module_map[j]? = some mv → mv ≠ -1 →
      ∀ c : Coord, inRegion h.detector_name gap_pixels j c →
        h._process zeroBuf images conversion mask gap_pixels true false c =
          JFDataHandler._process { h with module_map := mm' } zeroBuf images'
            conversion mask gap_pixels true false c) := by
  have hns := valid_name_not_stripsel _ hv
  have hdisj := regionsDisjoint_spec _ gap_pixels _ (valid_name_regions_disjoint _ gap_pixels hv)
  obtain ⟨hi₀lt, hi₀get⟩ := List.getElem?_eq_some.mp hi₀
  constructor
  · intro c hc
    unfold JFDataHandler._process
    rw [foldl_invariant_at _ _ c ?_]
    · rfl
    · intro a ha b
      rw [List.mem_enum_iff_getElem?] at ha
      obtain ⟨j, m⟩ := a
      by_cases hm : m = -1
      · subst hm
        rw [_process_step_skip]
      · obtain ⟨hjlt, hjget⟩ := List.getElem?_eq_some.mp ha
        have hj : j ≠ i₀ := by
          intro hji
          subst hji
          rw [hi₀] at ha
          injection ha with ha2
          exact hm ha2.symm
        exact _process_step_away h conversion mask gap_pixels false images b j m c hns
          (hdisj i₀ j (hlen ▸ hi₀lt) (hlen ▸ hjlt) (fun he => hj he.symm) c hc)
  · intro j mv hjne hjget hmvne c hc
    obtain ⟨hjlt, hjgetE⟩ := List.getElem?_eq_some.mp hjget
    show (h.module_map.enum.foldl
        (h._process_step conversion mask gap_pixels true false images) zeroBuf) c =
      (mm'.enum.foldl
        (h._process_step conversion mask gap_pixels true false images') zeroBuf) c
    refine foldl_congr_at _ _ _ _ c ?_ zeroBuf zeroBuf rfl
    rw [List.forall₂_iff_get]
    refine ⟨by simp [List.enum_length, hlen'], ?_⟩
    intro k h₁ h₂
    have hk1 : k < h.module_map.length := by simpa [List.enum_length] using h₁
    have hk2 : k < mm'.length := by simpa [List.enum_length] using h₂
    simp only [List.get_eq_getElem, List.getElem_enum]
    intro b b' hb
    by_cases hk0 : k = i₀
    · subst hk0
      have hmapi : h.module_map[k] = -1 := by
        have e := List.getElem?_eq_getElem hk1
        rw [hi₀] at e
        exact (Option.some.inj e).symm
      have hmmi : mm'[k] = m₀ := by
        have e := List.getElem?_eq_getElem hk2
        rw [hm₀] at e
        exact (Option.some.inj e).symm
      rw [hmapi, hmmi, _process_step_skip,
        _process_step_away h conversion mask gap_pixels false images' b' k m₀ c hns
          (hdisj j k (hlen ▸ hjlt) (hlen ▸ hk1) hjne c hc)]
      exact hb
    · have hksame : mm'[k]? = h.module_map[k]? := hmm' k hk2 hk0
      have hkval : mm'[k] = h.module_map[k] := by
        have e1 := List.getElem?_eq_getElem hk2
        have e2 := List.getElem?_eq_getElem hk1
        rw [e1, e2] at hksame
        exact Option.some.inj hksame
      rw [hkval]
      by_cases hmneg : h.module_map[k] = -1
      · rw [hmneg, _process_step_skip, _process_step_skip]
        exact hb
      · by_cases hkj : k = j
        · subst hkj
          have hmval : h.module_map[k] = mv := by
            have e := List.getElem?_eq_getElem hk1
            rw [hjget] at e
            exact (Option.some.inj e).symm
          rw [hmval]
          have hmem : mv ∈ h.module_map := hmval ▸ List.getElem_mem _
          have hmem' : mv ∈ mm' := by
            obtain ⟨hlt2, hg2⟩ := List.getElem?_eq_some.mp (hksame.trans hjget)
            exact hg2 ▸ List.getElem_mem _
          exact _process_step_value_congr h images images' conversion mask gap_pixels
            k mv c b b' hv hmvne hfr hxdim (hfit mv hmem hmvne) (hfit' mv hmem' hmvne)
            (hagree mv hmem hmvne) hb
        · have hreg : ¬ inRegion h.detector_name gap_pixels k c :=
            hdisj j k (hlen ▸ hjlt) (hlen ▸ hk1) (fun he => hkj he.symm) c hc
          rw [_process_step_away h conversion mask gap_pixels false images b k _ c hns hreg,
            _process_step_away h conversion mask gap_pixels false images' b' k _ c hns hreg]
          exact hb

/-- Claim C9 (confirmed, for the geometry-mode placement the claim's
"region where that module would be placed" refers to).  For a valid
detector and a module map whose entry `i₀` is `-1`, `_process` never writes
the output region of logical module `i₀` — it stays exactly zero from the
zero-initialised buffer — while every other enabled module's region gets
exactly the value it gets under the map with `i₀` enabled, for inputs that
agree on the raw blocks of those modules (the raw input shape depends on
the active count, so the two runs consume different stacks). -/
theorem claim_C9_disabled_module (h : JFDataHandler) (mm' : List Int)
    (images images' : StackN) (conversion mask gap_pixels parallel : Bool)
    (i₀ : Nat) (m₀ : Int)
    (hv : (modules_orig h.detector_name).isSome = true)
    (hlen : h.module_map.length = n_modules h.detector_name)
    (hlen' : mm'.length = h.module_map.length)
    (hi₀ : h.module_map[i₀]? = some (-1))
    (hm₀ : mm'[i₀]? = some m₀)
    (hm₀ne : m₀ ≠ -1)
    (hmm' : ∀ j, j < mm'.length → j ≠ i₀ → mm'[j]? = h.module_map[j]?)
    (hfr : images.shape.1 = images'.shape.1)
    (hxdim : images.shape.2.2 = images'.shape.2.2)
    (hfit : ∀ mv ∈ h.module_map, mv ≠ -1 →
      (mv.toNat + 1) * MODULE_SIZE_Y ≤ images.shape.2.1)
    (hfit' : ∀ mv ∈ mm', mv ≠ -1 →
      (mv.toNat + 1) * MODULE_SIZE_Y ≤ images'.shape.2.1)
    (hagree : ∀ mv ∈ h.module_map, mv ≠ -1 →
      ∀ i1 y x, i1 < images.shape.1 → y < MODULE_SIZE_Y → x < images.shape.2.2 →
        images.data i1 (mv.toNat * MODULE_SIZE_Y + y) x =
          images'.data i1 (mv.toNat * MODULE_SIZE_Y + y) x) :
    (∀ c : Coord, inRegion h.detector_name gap_pixels i₀ c →
      h._process zeroBuf images conversion mask gap_pixels true parallel c = 0) ∧
    (∀ j mv, j ≠ i₀ → h.module_map[j]? = some mv → mv ≠ -1 →
      ∀ c : Coord, inRegion h.detector_name gap_pixels j c →
        h._process zeroBuf images conversion mask gap_pixels true parallel c =
          JFDataHandler._process { h with module_map := mm' } zeroBuf images'
            conversion mask gap_pixels true parallel c) := by
  have hcore := c9_core h mm' images images' conversion mask gap_pixels i₀ m₀
    hv hlen hlen' hi₀ hm₀ hm₀ne hmm' hfr hxdim hfit hfit' hagree
  cases parallel
  · exact hcore
  · constructor
    · intro c hc
      rw [_process_parallel_eq]
      exact hcore.1 c hc
    · intro j mv h1 h2 h3 c hc
      rw [_process_parallel_eq, _process_parallel_eq]
      exact hcore.2 j mv h1 h2 h3 c hc

/-- Witness for C9: `JF07T32V01` with the natural one-absent map (entry 5
disabled, later modules shifted down), compared against the map with entry
5 assigned physical slot 31, on all-zero input stacks of the matching
shapes. -/
theorem claim_C9_disabled_module_witness :
    ((modules_orig "JF07T32V01").isSome = true) ∧
    (([0, 1, 2, 3, 4, -1, 5, 6, 7, 8, 9, 10, 11, 12, 13, 14, 15, 16, 17, 18, 19,
        20, 21, 22, 23, 24, 25, 26, 27, 28, 29, 30] : List Int).length =
      n_modules "JF07T32V01") ∧
    ((∀ c : Coord, inRegion "JF07T32V01" true 5 c →
      JFDataHandler._process
        { detector_name := "JF07T32V01",
          module_map := [0, 1, 2, 3, 4, -1, 5, 6, 7, 8, 9, 10, 11, 12, 13, 14, 15,
            16, 17, 18, 19, 20, 21, 22, 23, 24, 25, 26, 27, 28, 29, 30] }
        zeroBuf ⟨(2, 15872, 1024), fun _ _ _ => 0⟩ false false true true false c = 0) ∧
    (∀ j mv, j ≠ 5 →
      ([0, 1, 2, 3, 4, -1, 5, 6, 7, 8, 9, 10, 11, 12, 13, 14, 15, 16, 17, 18, 19,
        20, 21, 22, 23, 24, 25, 26, 27, 28, 29, 30] : List Int)[j]? = some mv → mv ≠ -1 →
      ∀ c : Coord, inRegion "JF07T32V01" true j c →
        JFDataHandler._process
          { detector_name := "JF07T32V01",
            module_map := [0, 1, 2, 3, 4, -1, 5, 6, 7, 8, 9, 10, 11, 12, 13, 14, 15,
              16, 17, 18, 19, 20, 21, 22, 23, 24, 25, 26, 27, 28, 29, 30] }
          zeroBuf ⟨(2, 15872, 1024), fun _ _ _ => 0⟩ false false true true false c =
        JFDataHandler._process
          { detector_name := "JF07T32V01",
            module_map := [0, 1, 2, 3, 4, 31, 5, 6, 7, 8, 9, 10, 11, 12, 13, 14, 15,
              16, 17, 18, 19, 20, 21, 22, 23, 24, 25, 26, 27, 28, 29, 30] }
          zeroBuf ⟨(2, 16384, 1024), fun _ _ _ => 0⟩ false false true true false c)) := by
  refine ⟨by decide, by decide, ?_⟩
  exact claim_C9_disabled_module
    { detector_name := "JF07T32V01",
      module_map := [0, 1, 2, 3, 4, -1, 5, 6, 7, 8, 9, 10, 11, 12, 13, 14, 15,
        16, 17, 18, 19, 20, 21, 22, 23, 24, 25, 26, 27, 28, 29, 30] }
    [0, 1, 2, 3, 4, 31, 5, 6, 7, 8, 9, 10, 11, 12, 13, 14, 15,
      16, 17, 18, 19, 20, 21, 22, 23, 24, 25, 26, 27, 28, 29, 30]
    ⟨(2, 15872, 1024), fun _ _ _ => 0⟩ ⟨(2, 16384, 1024), fun _ _ _ => 0⟩
    false false true false 5 31
    (by decide) (by decide) (by decide) (by decide) (by decide) (by decide)
    (by decide) rfl rfl (by decide) (by decide)
    (fun _ _ _ _ _ _ _ _ _ => rfl)

end JFUtils
